import Mathlib

/-!
Verification development for the EasyK8s cluster-bootstrap orchestrator
(src/k3s/src/main.rs, src/k3s/src/prod_cluster.rs, src/k3s/src/utils.rs).

The Rust code is shallowly embedded in a state monad M over RunState.
RunState carries the local filesystem (a set of paths; the literal
YAML/manifest payload bodies are opaque configuration payloads, out of
scope per spec section 1) together with the ordered trace of observable
effects (console lines, spawned commands, manifests piped to the
resource manager, filesystem writes, sleeps).  External collaborators
(k3d, kubectl, helm) are an oracle Env mapping each invocation to its
outcome; spawn failure, non-zero exit and success are distinguished
exactly as std::process::Command::output exposes them to the code.
-/

namespace EK

/-- Captured output of one spawned process, as the code reads it from
std::process::Output: exit status plus captured stdout/stderr. -/
structure CmdOut where
  success : Bool
  stdout : String
  stderr : String
deriving DecidableEq, Repr

/-- Result of attempting to spawn one external command: the spawn itself
can fail (Command::output returning Err), or the process runs and
exits with the given captured output. -/
inductive ExecResult where
  | spawnFail
  | ran (out : CmdOut)
deriving DecidableEq, Repr

/-- The environment oracle: outcome of each external command invocation
(cmd plus argument vector), and outcome of piping a manifest into
kubectl apply -f - (utils::apply_manifest). -/
structure Env where
  exec : String → List String → ExecResult
  applyExec : String → ExecResult

/-- One observable effect of the run, in order of occurrence.
print is a console line written by the program itself; printOut is the
passthrough of a spawned command's captured stdout (utils.rs line 22);
runCmd is a spawn attempt of an external command; applyManifest is a
manifest piped to kubectl apply -f -; writeFile and createDir are
filesystem mutations; sleep is a fixed settle delay in seconds. -/
inductive Event where
  | print (line : String)
  | printOut (captured : String)
  | runCmd (cmd : String) (args : List String)
  | applyManifest (manifest : String)
  | writeFile (path : String)
  | createDir (path : String)
  | sleep (secs : Nat)
deriving DecidableEq, Repr

/-- Boolean test that the first character list is an initial segment of
the second (used for path-ancestor checks in the filesystem model). -/
def strStarts : List Char → List Char → Bool
  | [], _ => true
  | _ :: _, [] => false
  | a :: xs, b :: ys => a = b && strStarts xs ys

/-- The local filesystem, modelled as the set of paths that exist.
fs::create_dir_all and fs::write add paths (contents are opaque
payloads, out of scope per spec section 1). -/
structure FS where
  paths : List String
deriving DecidableEq, Repr

/-- Path::new(p).exists(): p exists if it was created itself, or if it
is an ancestor directory of a created path (create_dir_all creates all
parent directories). -/
def pathExists (fs : FS) (p : String) : Bool :=
  fs.paths.any (fun q => q = p || strStarts (p.data ++ [('/')]) q.data)

/-- The mutable world threaded through a run: the filesystem plus the
trace of observable effects so far. -/
structure RunState where
  fs : FS
  events : List Event
deriving DecidableEq, Repr

/-- Shallow embedding of the effectful Rust functions returning
anyhow::Result: state passing plus an Except for the error short
circuit performed by the question-mark operator. -/
def M (α : Type) : Type := RunState → RunState × Except String α

/-- Monadic return: no effect, Ok value. -/
def M.pure {α : Type} (a : α) : M α := fun s => (s, Except.ok a)

/-- Monadic bind: run the first action; on Err the continuation is
skipped and the world is frozen at the failure point, exactly the
semantics of the question-mark operator in the Rust code. -/
def M.bind {α β : Type} (x : M α) (f : α → M β) : M β := fun s =>
  match x s with
  | (s1, Except.ok a) => f a s1
  | (s1, Except.error e) => (s1, Except.error e)

instance : Monad M where
  pure := M.pure
  bind := M.bind

/-- Append one observable event to the trace. -/
def emit (e : Event) : M Unit :=
  fun s => ({ s with events := s.events ++ [e] }, Except.ok ())

/-- Fail with an error message (anyhow::bail / context). -/
def throwM {α : Type} (msg : String) : M α := fun s => (s, Except.error msg)

/-- Path::new(p).exists() as a read-only monadic observation. -/
def pathExistsM (p : String) : M Bool :=
  fun s => (s, Except.ok (pathExists s.fs p))

/-- fs::write: create the file (contents are an opaque payload). -/
def fsWrite (p : String) : M Unit :=
  fun s => (⟨⟨s.fs.paths ++ [p]⟩, s.events ++ [Event.writeFile p]⟩, Except.ok ())

/-- fs::create_dir_all: create the directory (ancestor directories are
implied through pathExists). -/
def fsCreateDirAll (p : String) : M Unit :=
  fun s => (⟨⟨s.fs.paths ++ [p]⟩, s.events ++ [Event.createDir p]⟩, Except.ok ())

/-- tokio::time::sleep of the given number of seconds. -/
def sleepSecs (n : Nat) : M Unit := emit (Event.sleep n)

/-- utils.rs lines 5-26, fn run: spawn cmd with args; spawn failure and
non-zero exit become errors; on success a non-empty captured stdout is
printed through. -/
def run (env : Env) (cmd : String) (args : List String) : M Unit := do
  emit (Event.runCmd cmd args)
  match env.exec cmd args with
  | ExecResult.spawnFail =>
      throwM ("failed to run: " ++ cmd ++ " " ++ String.intercalate (" ") args)
  | ExecResult.ran out =>
      if out.success = false then
        throwM ("Command failed: " ++ cmd ++ " " ++ String.intercalate (" ") args
          ++ "\nstderr: " ++ out.stderr)
      else if out.stdout = "" then pure ()
      else emit (Event.printOut out.stdout)

/-- utils.rs lines 28-53, fn apply_manifest: pipe the manifest text into
kubectl apply -f -; spawn failure and non-zero exit become errors. -/
def apply_manifest (env : Env) (manifest : String) : M Unit := do
  emit (Event.applyManifest manifest)
  match env.applyExec manifest with
  | ExecResult.spawnFail => throwM ("Failed to spawn kubectl")
  | ExecResult.ran out =>
      if out.success = false then
        throwM ("kubectl apply failed:\n" ++ out.stderr)
      else pure ()

/-- prod_cluster.rs lines 10-17, struct ProdClusterConfig.  servers and
agents are u8 in the source; values are always in 0..=255 because the
resolver (resolve_prod_config) only produces such values. -/
structure ProdClusterConfig where
  name : String
  servers : Nat
  agents : Nat
  install_monitoring : Bool
  install_logging : Bool
  install_argocd : Bool
deriving DecidableEq, Repr

/-- prod_cluster.rs line 20, const HELM_VALUES_DIR. -/
def HELM_VALUES_DIR : String := "./helm-values"

/-- prod_cluster.rs lines 205-207, fn get_values_file. -/
def get_values_file (component : String) : String :=
  HELM_VALUES_DIR ++ "/" ++ component ++ ".yaml"

/-- prod_cluster.rs lines 209-211, fn get_manifest_file. -/
def get_manifest_file (n : String) : String :=
  HELM_VALUES_DIR ++ "/manifests/" ++ n ++ ".yaml"

/-- prod_cluster.rs lines 103-109, fn check_helm_installed: probe helm
by running helm version; a spawn failure (Err, unwrap_or(false)) and a
non-success exit both yield false; only a successful exit yields true.
A total Bool-valued function: probing can never raise an error. -/
def check_helm_installed (env : Env) : Bool :=
  match env.exec ("helm") ["version"] with
  | ExecResult.spawnFail => false
  | ExecResult.ran out => out.success

/-- prod_cluster.rs lines 179-203, fn create_sample_nginx_chart: write
the five files of the bundled sample chart (contents are opaque
payloads bundled via include_str). -/
def create_sample_nginx_chart : M Unit := do
  let chart_dir := HELM_VALUES_DIR ++ "/charts/sample-nginx"
  fsWrite (chart_dir ++ "/Chart.yaml")
  fsWrite (chart_dir ++ "/values.yaml")
  fsWrite (chart_dir ++ "/templates/deployment.yaml")
  fsWrite (chart_dir ++ "/templates/service.yaml")
  fsWrite (chart_dir ++ "/templates/ingress.yaml")

/-- prod_cluster.rs lines 131-177, fn create_default_values_files:
write the default values files, the sample chart and the default
manifest files (contents are opaque payloads bundled via include_str).
-/
def create_default_values_files : M Unit := do
  fsWrite (get_values_file ("cert-manager"))
  fsWrite (get_values_file ("ingress-nginx"))
  fsWrite (get_values_file ("kube-prometheus-stack"))
  fsWrite (get_values_file ("elasticsearch"))
  fsWrite (get_values_file ("fluentd"))
  fsWrite (get_values_file ("kibana"))
  fsWrite (get_values_file ("argocd"))
  create_sample_nginx_chart
  fsWrite (HELM_VALUES_DIR ++ "/manifests/cert-issuer.yaml")
  fsWrite (HELM_VALUES_DIR ++ "/manifests/namespaces.yaml")
  fsWrite (HELM_VALUES_DIR ++ "/manifests/network-policies.yaml")
  fsWrite (HELM_VALUES_DIR ++ "/manifests/resource-quotas.yaml")

/-- prod_cluster.rs lines 111-129, fn ensure_helm_values_dir: if the
helm values directory is missing, create the directory structure and
populate it with the default values files; otherwise do nothing. -/
def ensure_helm_values_dir : M Unit := do
  let dirExists ← pathExistsM HELM_VALUES_DIR
  (if dirExists = false then do
    emit (Event.print ("⚠️  Warning: Helm values directory not found at \x27"
      ++ HELM_VALUES_DIR ++ "\x27"))
    emit (Event.print ("   Creating directory structure..."))
    fsCreateDirAll HELM_VALUES_DIR
    fsCreateDirAll (HELM_VALUES_DIR ++ "/charts/sample-nginx/templates")
    fsCreateDirAll (HELM_VALUES_DIR ++ "/manifests")
    create_default_values_files
    emit (Event.print ("   ✅ Created " ++ HELM_VALUES_DIR
      ++ " with default values files"))
   else pure ())

/-- prod_cluster.rs lines 213-273, fn create_k3d_config: render the
cluster-topology payload (opaque, spec section 1) and write it to
/tmp/k3d-prod-config.yaml. -/
def create_k3d_config (_config : ProdClusterConfig) : M Unit := do
  fsWrite ("/tmp/k3d-prod-config.yaml")
  emit (Event.print ("✅ Created k3d configuration"))

/-- prod_cluster.rs lines 275-295, fn setup_helm_repos: add the six
chart repositories and refresh the repo index. -/
def setup_helm_repos (env : Env) : M Unit := do
  emit (Event.print ("\n📚 Adding Helm repositories..."))
  run env ("helm") ["repo", "add", "jetstack", "https://charts.jetstack.io"]
  run env ("helm") ["repo", "add", "ingress-nginx",
    "https://kubernetes.github.io/ingress-nginx"]
  run env ("helm") ["repo", "add", "prometheus-community",
    "https://prometheus-community.github.io/helm-charts"]
  run env ("helm") ["repo", "add", "elastic", "https://helm.elastic.co"]
  run env ("helm") ["repo", "add", "fluent", "https://fluent.github.io/helm-charts"]
  run env ("helm") ["repo", "add", "argo", "https://argoproj.github.io/argo-helm"]
  run env ("helm") ["repo", "update"]
  emit (Event.print ("✅ Helm repositories configured"))

/-- prod_cluster.rs lines 336-367: the inline fallback ClusterIssuer /
Certificate manifest (opaque payload body, spec section 1), used when
the external cert-issuer manifest file is absent. -/
def certIssuerInline : String := "inline manifest: selfsigned ClusterIssuer, local CA Certificate, CA ClusterIssuer (prod_cluster.rs lines 336-367)"

/-- prod_cluster.rs lines 572-605: the inline fallback NGINX Deployment
and Service manifest (opaque payload body, spec section 1). -/
def basicNginxInline : String := "inline manifest: sample-nginx Deployment and Service in namespace production (prod_cluster.rs lines 572-605)"

/-- prod_cluster.rs lines 619-640: the inline fallback Namespace
manifest for production, staging and development (opaque payload body,
spec section 1). -/
def namespacesInline : String := "inline manifest: Namespaces production, staging, development (prod_cluster.rs lines 619-640)"

/-- prod_cluster.rs lines 656-679: the inline fallback NetworkPolicy
manifest (opaque payload body, spec section 1). -/
def networkPoliciesInline : String := "inline manifest: NetworkPolicies default-deny-ingress and allow-same-namespace (prod_cluster.rs lines 656-679)"

/-- prod_cluster.rs lines 695-728: the inline fallback ResourceQuota and
LimitRange manifest (opaque payload body, spec section 1). -/
def resourceQuotasInline : String := "inline manifest: ResourceQuota compute-quota and LimitRange resource-limits (prod_cluster.rs lines 695-728)"

/-- Helm arguments assembled at prod_cluster.rs lines 305-310 for the
cert-manager install, before the optional values-file fallback. -/
def certManagerBaseArgs : List String :=
  ["install", "cert-manager", "jetstack/cert-manager",
   "--namespace", "cert-manager", "--version", "v1.13.2",
   "--set", "installCRDs=true"]

/-- prod_cluster.rs lines 297-373, fn install_cert_manager_helm: create
the namespace, install the chart (with the external values file when it
exists, with the built-in arguments otherwise), settle, wait for pod
readiness with a 300s timeout, then apply the cert issuer (external
manifest file when present, inline fallback otherwise). -/
def install_cert_manager_helm (env : Env) : M Unit := do
  emit (Event.print ("\n🔐 Installing cert-manager via Helm..."))
  run env ("kubectl") ["create", "namespace", "cert-manager"]
  let values_file := get_values_file ("cert-manager")
  let values_exists ← pathExistsM values_file
  (if values_exists = false then
    emit (Event.print ("   ℹ️  Using default values (no custom values file found)"))
   else pure ())
  run env ("helm")
    (if values_exists then certManagerBaseArgs ++ ["--values", values_file]
     else certManagerBaseArgs)
  sleepSecs 30
  run env ("kubectl") ["wait", "--for=condition=ready", "pod",
    "-l", "app.kubernetes.io/instance=cert-manager", "-n", "cert-manager",
    "--timeout=300s"]
  let issuer_manifest := get_manifest_file ("cert-issuer")
  let issuer_exists ← pathExistsM issuer_manifest
  if issuer_exists then run env ("kubectl") ["apply", "-f", issuer_manifest]
  else apply_manifest env certIssuerInline
  emit (Event.print ("✅ Cert-manager installed via Helm"))

/-- Helm arguments assembled at prod_cluster.rs lines 383-386 for the
ingress-nginx install, before the fallback resolution. -/
def ingressBaseArgs : List String :=
  ["install", "ingress-nginx", "ingress-nginx/ingress-nginx",
   "--namespace", "ingress-nginx"]

/-- The built-in default overrides pushed at prod_cluster.rs lines
393-396 when no ingress values file exists. -/
def ingressDefaultArgs : List String :=
  ingressBaseArgs ++ ["--set", "controller.hostPort.enabled=true",
    "--set", "controller.service.type=NodePort"]

/-- prod_cluster.rs lines 375-412, fn install_ingress_controller_helm:
create the namespace, install the chart (external values file when it
exists, built-in --set overrides otherwise), settle, wait for the
controller pod with a 300s timeout. -/
def install_ingress_controller_helm (env : Env) : M Unit := do
  emit (Event.print ("\n🌐 Installing NGINX Ingress via Helm..."))
  run env ("kubectl") ["create", "namespace", "ingress-nginx"]
  let values_file := get_values_file ("ingress-nginx")
  let values_exists ← pathExistsM values_file
  (if values_exists = false then
    emit (Event.print ("   ℹ️  Using default values"))
   else pure ())
  run env ("helm")
    (if values_exists then ingressBaseArgs ++ ["--values", values_file]
     else ingressDefaultArgs)
  sleepSecs 20
  run env ("kubectl") ["wait", "--namespace", "ingress-nginx",
    "--for=condition=ready", "pod",
    "--selector=app.kubernetes.io/component=controller", "--timeout=300s"]
  emit (Event.print ("✅ NGINX Ingress installed via Helm"))

/-- Helm arguments assembled at prod_cluster.rs lines 422-427 for the
kube-prometheus-stack install. -/
def monitoringBaseArgs : List String :=
  ["install", "kube-prometheus-stack",
   "prometheus-community/kube-prometheus-stack",
   "--namespace", "monitoring", "--version", "54.2.2"]

/-- prod_cluster.rs lines 414-442, fn install_monitoring_stack_helm. -/
def install_monitoring_stack_helm (env : Env) : M Unit := do
  emit (Event.print ("\n📊 Installing kube-prometheus-stack via Helm..."))
  run env ("kubectl") ["create", "namespace", "monitoring"]
  let values_file := get_values_file ("kube-prometheus-stack")
  let values_exists ← pathExistsM values_file
  (if values_exists = false then
    emit (Event.print ("   ℹ️  Using default values"))
   else pure ())
  run env ("helm")
    (if values_exists then monitoringBaseArgs ++ ["--values", values_file]
     else monitoringBaseArgs)
  sleepSecs 30
  emit (Event.print ("✅ Monitoring stack installed via Helm"))

/-- Helm arguments assembled at prod_cluster.rs lines 454-458 for the
elasticsearch install. -/
def esBaseArgs : List String :=
  ["install", "elasticsearch", "elastic/elasticsearch",
   "--namespace", "logging", "--version", "8.5.1"]

/-- Helm arguments assembled at prod_cluster.rs lines 479-482 for the
fluentd install. -/
def fluentdBaseArgs : List String :=
  ["install", "fluentd", "fluent/fluentd", "--namespace", "logging"]

/-- Helm arguments assembled at prod_cluster.rs lines 496-500 for the
kibana install. -/
def kibanaBaseArgs : List String :=
  ["install", "kibana", "elastic/kibana",
   "--namespace", "logging", "--version", "8.5.1"]

/-- prod_cluster.rs lines 444-511, fn install_logging_stack_helm:
create the logging namespace, then install elasticsearch (with external
values or built-in --set overrides), settle, then fluentd and kibana
(each with the external values file only when it exists). -/
def install_logging_stack_helm (env : Env) : M Unit := do
  emit (Event.print ("\n📝 Installing EFK stack via Helm..."))
  run env ("kubectl") ["create", "namespace", "logging"]
  emit (Event.print ("   Installing Elasticsearch..."))
  let es_values := get_values_file ("elasticsearch")
  let es_values_exists ← pathExistsM es_values
  run env ("helm")
    (if es_values_exists then esBaseArgs ++ ["--values", es_values]
     else esBaseArgs ++ ["--set", "replicas=1", "--set", "minimumMasterNodes=1"])
  sleepSecs 30
  emit (Event.print ("   Installing Fluentd..."))
  let fluentd_values := get_values_file ("fluentd")
  let fluentd_values_exists ← pathExistsM fluentd_values
  run env ("helm")
    (if fluentd_values_exists then fluentdBaseArgs ++ ["--values", fluentd_values]
     else fluentdBaseArgs)
  emit (Event.print ("   Installing Kibana..."))
  let kibana_values := get_values_file ("kibana")
  let kibana_values_exists ← pathExistsM kibana_values
  run env ("helm")
    (if kibana_values_exists then kibanaBaseArgs ++ ["--values", kibana_values]
     else kibanaBaseArgs)
  emit (Event.print ("✅ EFK stack installed via Helm"))

/-- Helm arguments assembled at prod_cluster.rs lines 521-525 for the
argo-cd install. -/
def argocdBaseArgs : List String :=
  ["install", "argocd", "argo/argo-cd",
   "--namespace", "argocd", "--version", "5.51.6"]

/-- prod_cluster.rs lines 513-547, fn install_argocd_helm. -/
def install_argocd_helm (env : Env) : M Unit := do
  emit (Event.print ("\n🔄 Installing ArgoCD via Helm..."))
  run env ("kubectl") ["create", "namespace", "argocd"]
  let values_file := get_values_file ("argocd")
  let values_exists ← pathExistsM values_file
  (if values_exists = false then
    emit (Event.print ("   ℹ️  Using default values"))
   else pure ())
  run env ("helm")
    (if values_exists then argocdBaseArgs ++ ["--values", values_file]
     else argocdBaseArgs)
  sleepSecs 30
  run env ("kubectl") ["wait", "--namespace", "argocd",
    "--for=condition=ready", "pod",
    "--selector=app.kubernetes.io/name=argocd-server", "--timeout=300s"]
  emit (Event.print ("✅ ArgoCD installed via Helm"))

/-- prod_cluster.rs lines 571-609, fn deploy_basic_nginx: apply the
inline NGINX manifest. -/
def deploy_basic_nginx (env : Env) : M Unit :=
  apply_manifest env basicNginxInline

/-- prod_cluster.rs lines 549-569, fn deploy_sample_app_helm: install
the bundled chart when it exists on disk, otherwise fall back to the
inline manifest; then settle. -/
def deploy_sample_app_helm (env : Env) : M Unit := do
  emit (Event.print ("\n🚀 Deploying sample NGINX app..."))
  let chart_dir := HELM_VALUES_DIR ++ "/charts/sample-nginx"
  let chartDirExists ← pathExistsM chart_dir
  let chartYamlExists ← pathExistsM (chart_dir ++ "/Chart.yaml")
  if chartDirExists && chartYamlExists then
    run env ("helm") ["install", "sample-nginx", chart_dir,
      "--namespace", "production", "--create-namespace"]
  else do
    emit (Event.print ("   ℹ️  Custom chart not found, deploying basic NGINX with kubectl..."))
    deploy_basic_nginx env
  sleepSecs 10
  emit (Event.print ("✅ Sample NGINX app deployed"))

/-- prod_cluster.rs lines 611-646, fn setup_namespaces: apply the
external namespaces manifest when present, otherwise the inline
fallback. -/
def setup_namespaces (env : Env) : M Unit := do
  emit (Event.print ("\n📂 Creating application namespaces..."))
  let manifest_file := get_manifest_file ("namespaces")
  let fileExists ← pathExistsM manifest_file
  if fileExists then run env ("kubectl") ["apply", "-f", manifest_file]
  else apply_manifest env namespacesInline
  emit (Event.print ("✅ Namespaces created"))

/-- prod_cluster.rs lines 648-685, fn setup_network_policies. -/
def setup_network_policies (env : Env) : M Unit := do
  emit (Event.print ("\n🔒 Setting up network policies..."))
  let manifest_file := get_manifest_file ("network-policies")
  let fileExists ← pathExistsM manifest_file
  if fileExists then run env ("kubectl") ["apply", "-f", manifest_file]
  else apply_manifest env networkPoliciesInline
  emit (Event.print ("✅ Network policies applied"))

/-- prod_cluster.rs lines 687-734, fn setup_resource_quotas. -/
def setup_resource_quotas (env : Env) : M Unit := do
  emit (Event.print ("\n💾 Setting up resource quotas..."))
  let manifest_file := get_manifest_file ("resource-quotas")
  let fileExists ← pathExistsM manifest_file
  if fileExists then run env ("kubectl") ["apply", "-f", manifest_file]
  else apply_manifest env resourceQuotasInline
  emit (Event.print ("✅ Resource quotas set"))

/-- prod_cluster.rs line 737: the 60-character separator line. -/
def sepLine : String := String.mk (List.replicate 60 ('='))

/-- prod_cluster.rs lines 736-751, fn print_basic_access_info: the
"basic" post-provision summary, emitted when Helm is unavailable. -/
def print_basic_access_info (cluster_name : String) : M Unit := do
  emit (Event.print ("\n" ++ sepLine))
  emit (Event.print ("🎯 Access Information for \x27" ++ cluster_name ++ "\x27:"))
  emit (Event.print (sepLine))
  emit (Event.print ("\n📦 Basic cluster created (Helm components not installed)"))
  emit (Event.print ("\n🔍 Useful Commands:"))
  emit (Event.print ("  kubectl get pods -A"))
  emit (Event.print ("  kubectl config use-context k3d-" ++ cluster_name))
  emit (Event.print ("  k3d cluster delete " ++ cluster_name))
  emit (Event.print ("\n💡 To install Helm components, first install Helm:"))
  emit (Event.print ("  macOS:   brew install helm"))
  emit (Event.print ("  Linux:   curl https://raw.githubusercontent.com/helm/helm/main/scripts/get-helm-3 | bash"))
  emit (Event.print ("  Windows: choco install kubernetes-helm"))
  emit (Event.print ("\n" ++ sepLine))

/-- prod_cluster.rs lines 753-780, fn print_access_info: the "full"
post-provision summary, emitted after a fully successful Helm-backed
run. -/
def print_access_info (cluster_name : String) : M Unit := do
  emit (Event.print ("\n" ++ sepLine))
  emit (Event.print ("🎯 Access Information for \x27" ++ cluster_name ++ "\x27:"))
  emit (Event.print (sepLine))
  emit (Event.print ("\n📊 Monitoring:"))
  emit (Event.print ("  Prometheus: http://localhost:9090"))
  emit (Event.print ("  Grafana:    http://localhost:3000 (admin/admin)"))
  emit (Event.print ("\n📝 Logging:"))
  emit (Event.print ("  Kibana:     http://localhost:5601"))
  emit (Event.print ("\n🔄 GitOps:"))
  emit (Event.print ("  ArgoCD:     http://localhost:8080 (admin)"))
  emit (Event.print ("  Password:   kubectl -n argocd get secret argocd-initial-admin-secret -o jsonpath=\"\x7b.data.password\x7d\" | base64 -d"))
  emit (Event.print ("\n🌐 Sample App:"))
  emit (Event.print ("  Add to /etc/hosts: 127.0.0.1 nginx.local"))
  emit (Event.print ("  Then visit: http://nginx.local"))
  emit (Event.print ("\n📦 Installed Helm Releases:"))
  emit (Event.print ("  helm list -A"))
  emit (Event.print ("\n🔍 Useful Commands:"))
  emit (Event.print ("  kubectl get pods -A"))
  emit (Event.print ("  kubectl config use-context k3d-" ++ cluster_name))
  emit (Event.print ("  helm list -n monitoring"))
  emit (Event.print ("  k3d cluster delete " ++ cluster_name))
  emit (Event.print ("\n📁 Configuration Files:"))
  emit (Event.print ("  Helm values: " ++ HELM_VALUES_DIR))
  emit (Event.print ("  Edit values: vim " ++ HELM_VALUES_DIR ++ "/cert-manager.yaml"))
  emit (Event.print ("\n" ++ sepLine))

/-- prod_cluster.rs lines 48-58: the cluster-creation step of
create_prod_cluster — invoke k3d cluster create with the rendered
config, settle for 10 seconds, then verify node health. -/
def cluster_create_block (env : Env) (config : ProdClusterConfig) : M Unit := do
  emit (Event.print ("\n🏗️  Creating HA cluster..."))
  run env ("k3d") ["cluster", "create", config.name,
    "--config", "/tmp/k3d-prod-config.yaml"]
  emit (Event.print ("✅ Cluster created! Waiting for nodes..."))
  sleepSecs 10
  run env ("kubectl") ["get", "nodes", "-o", "wide"]

/-- prod_cluster.rs lines 23-45: everything create_prod_cluster does
before the cluster-creation step — the configuration banner, the helm
availability probe (computed once and reused), the warning when helm is
absent, the values-directory check when helm is present, and the
rendering of the k3d config file.  Returns the probed helm
availability. -/
def bootstrap_preamble (env : Env) (config : ProdClusterConfig) : M Bool := do
  emit (Event.print ("🚀 Building production-like k3d cluster: " ++ config.name))
  emit (Event.print ("📋 Configuration:"))
  emit (Event.print ("   Control Plane Nodes: " ++ toString config.servers))
  emit (Event.print ("   Worker Nodes: " ++ toString config.agents))
  emit (Event.print ("   Monitoring: " ++ (if config.install_monitoring then "✓" else "✗")))
  emit (Event.print ("   Logging: " ++ (if config.install_logging then "✓" else "✗")))
  emit (Event.print ("   ArgoCD: " ++ (if config.install_argocd then "✓" else "✗")))
  let helm_available := check_helm_installed env
  (if helm_available = false then do
    emit (Event.print ("\n⚠️  Warning: Helm is not installed!"))
    emit (Event.print ("   Install with: brew install helm (macOS) or curl https://raw.githubusercontent.com/helm/helm/main/scripts/get-helm-3 | bash"))
    emit (Event.print ("   Continuing with cluster creation only...\n"))
   else pure ())
  (if helm_available then ensure_helm_values_dir else pure ())
  create_k3d_config config
  pure helm_available

/-- prod_cluster.rs lines 63-64 and 97-98: the success banner and the
post-provision summary — the basic variant when helm was unavailable,
the full variant otherwise. -/
def bootstrap_postamble (config : ProdClusterConfig) (helm_available : Bool) : M Unit :=
  if helm_available then do
    emit (Event.print ("\n🎉 Production cluster \x27" ++ config.name ++ "\x27 is ready!"))
    print_access_info config.name
  else do
    emit (Event.print ("\n✅ Basic cluster \x27" ++ config.name ++ "\x27 is ready!"))
    print_basic_access_info config.name

/-- prod_cluster.rs lines 60-66: the reduced path taken when helm is
unavailable — announce the skip, create only the namespaces, then the
basic summary. -/
def branch_basic (env : Env) (config : ProdClusterConfig) : M Unit := do
  emit (Event.print ("\n⚠️  Skipping Helm installations (Helm not available)"))
  setup_namespaces env
  bootstrap_postamble config false

/-- prod_cluster.rs lines 68-98: the full path taken when helm is
available — repositories, cert-manager, ingress, the three
flag-gated stacks, namespaces/policies/quotas, the sample app, then
the full summary. -/
def branch_full (env : Env) (config : ProdClusterConfig) : M Unit := do
  emit (Event.print ("\n📦 Installing core components via Helm..."))
  setup_helm_repos env
  install_cert_manager_helm env
  install_ingress_controller_helm env
  (if config.install_monitoring then install_monitoring_stack_helm env else pure ())
  (if config.install_logging then install_logging_stack_helm env else pure ())
  (if config.install_argocd then install_argocd_helm env else pure ())
  setup_namespaces env
  setup_network_policies env
  setup_resource_quotas env
  deploy_sample_app_helm env
  bootstrap_postamble config true

/-- prod_cluster.rs lines 22-101, pub async fn create_prod_cluster: the
whole production bootstrap.  The early return of the Rust source at
lines 60-66 (helm unavailable) is rendered as the if/else on the probed
value. -/
def create_prod_cluster (env : Env) (config : ProdClusterConfig) : M Unit := do
  let helm_available ← bootstrap_preamble env config
  cluster_create_block env config
  if helm_available = false then branch_basic env config
  else branch_full env config

/-- Raw caller input for the Prod subcommand, main.rs lines 31-55: the
cluster name, the requested server and agent counts as supplied
integers (before the u8 parse), and the three skip flags. -/
structure RawProdArgs where
  name : String
  servers : Int
  agents : Int
  skip_monitoring : Bool
  skip_logging : Bool
  skip_argocd : Bool

/-- The error with which out-of-range counts are rejected (the spec
calls it ConfigError; in the source it is the argument parser's
out-of-range error for a u8 value, raised before main's body runs). -/
def configErrorMsg : String := "ConfigError: server/agent count out of range for u8"

/-- Config resolution, main.rs lines 36-42 and 81-96: the server and
agent counts are u8-typed, so the argument parser accepts exactly the
values representable in 0..=255 and rejects anything else before any
side effect; the accepted counts are taken unchanged, and each install
flag is the logical negation of the corresponding skip flag. -/
def resolve_prod_config (a : RawProdArgs) : Except String ProdClusterConfig :=
  if 0 ≤ a.servers ∧ a.servers ≤ 255 ∧ 0 ≤ a.agents ∧ a.agents ≤ 255 then
    Except.ok { name := a.name, servers := a.servers.toNat, agents := a.agents.toNat,
                install_monitoring := !a.skip_monitoring,
                install_logging := !a.skip_logging,
                install_argocd := !a.skip_argocd }
  else Except.error configErrorMsg

/-- main.rs lines 81-98: the Prod command — resolve the configuration,
then run the bootstrap; a resolution failure aborts before any side
effect (the world is returned untouched). -/
def main_prod (a : RawProdArgs) (env : Env) : M Unit := fun s =>
  match resolve_prod_config a with
  | Except.error e => (s, Except.error e)
  | Except.ok config => create_prod_cluster env config s

/-- Terminal outcome of one pipeline step (the StepResult of the spec):
it ran and succeeded, it was skipped by its gate, or it failed with the
terminating error. -/
inductive Outcome where
  | succeeded
  | skipped
  | failed (msg : String)
deriving DecidableEq, Repr

/-- The step sequencer view: execute a gated step list strictly in
order, accumulating one named Outcome per step reached; a disabled step
is recorded as skipped with no effect; a failing step freezes the world
at the failure point, is recorded as failed, and terminates the
sequence (no later step is reached). -/
def runSteps : List (String × Bool × M Unit) → RunState →
    RunState × List (String × Outcome) × Option String
  | [], s => (s, [], none)
  | (n, enabled, act) :: rest, s =>
    if enabled then
      match act s with
      | (s1, Except.ok _) =>
        let r := runSteps rest s1
        (r.1, (n, Outcome.succeeded) :: r.2.1, r.2.2)
      | (s1, Except.error e) => (s1, [(n, Outcome.failed e)], some e)
    else
      let r := runSteps rest s
      (r.1, (n, Outcome.skipped) :: r.2.1, r.2.2)

/-- Sequential composition of a gated step list as a plain monadic
program (forgetting outcomes); used to relate create_prod_cluster to
runSteps. -/
def execList : List (String × Bool × M Unit) → M Unit
  | [] => pure ()
  | (_, enabled, act) :: rest =>
    (if enabled then act else pure ()) >>= fun _ => execList rest

/-- The single gated step of the reduced (helm unavailable) path: the
namespaces step (the branch-opening console line is attributed to it).
-/
def basicStepsList (env : Env) : List (String × Bool × M Unit) :=
  [("namespaces", true, do
      emit (Event.print ("\n⚠️  Skipping Helm installations (Helm not available)"))
      setup_namespaces env)]

/-- The gated steps of the full (helm available) path, in source order;
monitoring, logging and argocd are gated by their feature flags, all
other steps are unconditional (the branch-opening console line is
attributed to the first step). -/
def fullStepsList (env : Env) (config : ProdClusterConfig) :
    List (String × Bool × M Unit) :=
  [("helm-repos", true, do
      emit (Event.print ("\n📦 Installing core components via Helm..."))
      setup_helm_repos env),
   ("cert-manager", true, install_cert_manager_helm env),
   ("ingress", true, install_ingress_controller_helm env),
   ("monitoring", config.install_monitoring, install_monitoring_stack_helm env),
   ("logging", config.install_logging, install_logging_stack_helm env),
   ("argocd", config.install_argocd, install_argocd_helm env),
   ("namespaces", true, setup_namespaces env),
   ("network-policies", true, setup_network_policies env),
   ("resource-quotas", true, setup_resource_quotas env),
   ("sample-app", true, deploy_sample_app_helm env)]

/-- The static ordered pipeline of create_prod_cluster, as executed
after the preamble: the cluster-creation step followed by the steps of
the taken branch. -/
def prodSteps (env : Env) (config : ProdClusterConfig) (helm_available : Bool) :
    List (String × Bool × M Unit) :=
  ("cluster-create", true, cluster_create_block env config) ::
  (if helm_available then fullStepsList env config else basicStepsList env)

/-- The BootstrapReport view of a whole run: final world, the ordered
per-step Outcome list, and the overall result.  Proven below to agree
with create_prod_cluster on the final world and result. -/
def bootstrap_report (env : Env) (config : ProdClusterConfig) (s : RunState) :
    RunState × List (String × Outcome) × Except String Unit :=
  match bootstrap_preamble env config s with
  | (s1, Except.error e) => (s1, [], Except.error e)
  | (s1, Except.ok helm_available) =>
    match runSteps (prodSteps env config helm_available) s1 with
    | (s2, results, some e) => (s2, results, Except.error e)
    | (s2, results, none) =>
      match bootstrap_postamble config helm_available s2 with
      | (s3, Except.error e) => (s3, results, Except.error e)
      | (s3, Except.ok _) => (s3, results, Except.ok ())

/-- Frame property: every event in the final trace of m was already in
the initial trace or satisfies P (m only appends events, and every
appended event satisfies P). -/
def EmitsOnly {α : Type} (P : Event → Prop) (m : M α) : Prop :=
  ∀ s e, e ∈ ((m s).1).events → e ∈ s.events ∨ P e

/-- The action cannot fail (its result is Ok from every initial
world). -/
def AlwaysOk {α : Type} (m : M α) : Prop :=
  ∀ s, ∃ a, (m s).2 = Except.ok a

/-- The action cannot fail and always returns the given value. -/
def EndsOk {α : Type} (m : M α) (v : α) : Prop :=
  ∀ s, (m s).2 = Except.ok v

/-- A collaborator call attributable to the monitoring step: its helm
install (identified by the chart reference) or its namespace creation.
-/
def monitoringCall : Event → Bool
  | Event.runCmd c args =>
      (c == "helm" && args.contains ("prometheus-community/kube-prometheus-stack")) ||
      (c == "kubectl" && args == ["create", "namespace", "monitoring"])
  | _ => false

/-- A collaborator call attributable to the logging step: one of its
three helm installs (identified by chart references) or its namespace
creation. -/
def loggingCall : Event → Bool
  | Event.runCmd c args =>
      (c == "helm" && (args.contains ("elastic/elasticsearch") ||
        args.contains ("fluent/fluentd") || args.contains ("elastic/kibana"))) ||
      (c == "kubectl" && args == ["create", "namespace", "logging"])
  | _ => false

/-- A collaborator call attributable to the ArgoCD step: its helm
install (identified by the chart reference), its namespace creation,
or its kubectl readiness wait for the argocd-server pod
(prod_cluster.rs lines 538-543). -/
def argocdCall : Event → Bool
  | Event.runCmd c args =>
      (c == "helm" && args.contains ("argo/argo-cd")) ||
      (c == "kubectl" && args == ["create", "namespace", "argocd"]) ||
      (c == "kubectl" && args == ["wait", "--namespace", "argocd",
        "--for=condition=ready", "pod",
        "--selector=app.kubernetes.io/name=argocd-server", "--timeout=300s"])
  | _ => false

/-- Any invocation of the package-manager binary. -/
def helmInvocation : Event → Bool
  | Event.runCmd c _ => c == "helm"
  | _ => false

/-- A kubectl namespace-creation call (only the helm-backed steps issue
these; the namespaces step applies a manifest instead). -/
def nsCreateCall : Event → Bool
  | Event.runCmd c args =>
      match args with
      | [a, b, _] => c == "kubectl" && a == "create" && b == "namespace"
      | _ => false
  | _ => false

/-- The action of the namespaces step: applying the external namespaces
manifest or the inline fallback. -/
def namespacesStepEvent : Event → Bool
  | Event.runCmd c args =>
      c == "kubectl" && args == ["apply", "-f", get_manifest_file ("namespaces")]
  | Event.applyManifest m => m == namespacesInline
  | _ => false

/-- The action of the network-policies step. -/
def networkPoliciesCall : Event → Bool
  | Event.runCmd c args =>
      c == "kubectl" && args == ["apply", "-f", get_manifest_file ("network-policies")]
  | Event.applyManifest m => m == networkPoliciesInline
  | _ => false

/-- The action of the resource-quotas step. -/
def resourceQuotasCall : Event → Bool
  | Event.runCmd c args =>
      c == "kubectl" && args == ["apply", "-f", get_manifest_file ("resource-quotas")]
  | Event.applyManifest m => m == resourceQuotasInline
  | _ => false

/-- A collaborator call attributable to the sample-application step:
its helm install (release sample-nginx) or the inline fallback
manifest. -/
def sampleAppCall : Event → Bool
  | Event.runCmd c args => c == "helm" && args.contains ("sample-nginx")
  | Event.applyManifest m => m == basicNginxInline
  | _ => false

/-- Any collaborator call attributable to a package-manager-backed
step: a helm invocation, a kubectl namespace creation (only the
helm-backed steps create namespaces), the cert-issuer manifest, or the
sample-app fallback manifest. -/
def helmBackedStepCall (e : Event) : Bool :=
  helmInvocation e || nsCreateCall e ||
  e == Event.applyManifest certIssuerInline ||
  e == Event.applyManifest basicNginxInline

/-- The console line that only the full post-provision summary emits
(first section header of print_access_info). -/
def fullSummaryMarker : Event := Event.print ("\n📊 Monitoring:")

/-- The console line that only the basic post-provision summary emits.
-/
def basicSummaryMarker : Event :=
  Event.print ("\n📦 Basic cluster created (Helm components not installed)")

/-- The empty initial world: no files, no events. -/
def initState : RunState := ⟨⟨[]⟩, []⟩

/-- A successful process exit with empty captured output. -/
def okOut : CmdOut := ⟨true, "", ""⟩

/-- An environment in which every collaborator call succeeds with empty
output (helm present). -/
def allOkEnv : Env :=
  { exec := fun _ _ => ExecResult.ran okOut,
    applyExec := fun _ => ExecResult.ran okOut }

/-- An environment in which the helm binary exits non-zero (so the
probe reports unavailable) while k3d and kubectl succeed. -/
def noHelmEnv : Env :=
  { exec := fun c _ => if c = "helm" then ExecResult.ran ⟨false, "", ""⟩
      else ExecResult.ran okOut,
    applyExec := fun _ => ExecResult.ran okOut }

/-- An environment in which k3d cluster creation fails while everything
else succeeds. -/
def k3dFailEnv : Env :=
  { exec := fun c _ => if c = "k3d" then ExecResult.ran ⟨false, "", "k3d boom"⟩
      else ExecResult.ran okOut,
    applyExec := fun _ => ExecResult.ran okOut }

/-- An environment in which creating the logging namespace fails while
everything else succeeds. -/
def loggingFailEnv : Env :=
  { exec := fun _ args => if args = ["create", "namespace", "logging"]
      then ExecResult.ran ⟨false, "", "denied"⟩ else ExecResult.ran okOut,
    applyExec := fun _ => ExecResult.ran okOut }

/-- A representative configuration with every feature flag on. -/
def baseCfg : ProdClusterConfig :=
  { name := "prod", servers := 3, agents := 3,
    install_monitoring := true, install_logging := true, install_argocd := true }

/-- baseCfg with monitoring disabled (and ArgoCD disabled), used to
show that the returned value does not determine the step outcomes. -/
def noMonitoringCfg : ProdClusterConfig :=
  { name := "prod", servers := 3, agents := 3,
    install_monitoring := false, install_logging := true, install_argocd := true }

/-- The error message produced by the embedded utils::run when k3d
cluster creation fails in k3dFailEnv. -/
def k3dFailMsg : String :=
  "Command failed: k3d cluster create prod --config /tmp/k3d-prod-config.yaml\nstderr: k3d boom"

/-- The trace of the cert-issuer sub-step of install_cert_manager_helm:
the external manifest file when it exists, the inline fallback
otherwise. -/
def certIssuerStepEvents (fs : FS) : List Event :=
  if pathExists fs (get_manifest_file ("cert-issuer")) then
    [Event.runCmd ("kubectl") ["apply", "-f", get_manifest_file ("cert-issuer")]]
  else [Event.applyManifest certIssuerInline]

/-- Full trace of install_cert_manager_helm when every collaborator
call succeeds with empty output and the external values file exists:
the values file is passed to the install invocation. -/
def certTraceWithValues (fs : FS) : List Event :=
  [Event.print ("\n🔐 Installing cert-manager via Helm..."),
   Event.runCmd ("kubectl") ["create", "namespace", "cert-manager"],
   Event.runCmd ("helm") (certManagerBaseArgs ++ ["--values", get_values_file ("cert-manager")]),
   Event.sleep 30,
   Event.runCmd ("kubectl") ["wait", "--for=condition=ready", "pod",
     "-l", "app.kubernetes.io/instance=cert-manager", "-n", "cert-manager",
     "--timeout=300s"]]
  ++ certIssuerStepEvents fs
  ++ [Event.print ("✅ Cert-manager installed via Helm")]

/-- Full trace of install_cert_manager_helm when every collaborator
call succeeds with empty output and the external values file is
absent: the step notes the fallback and installs with the built-in
arguments alone. -/
def certTraceDefault (fs : FS) : List Event :=
  [Event.print ("\n🔐 Installing cert-manager via Helm..."),
   Event.runCmd ("kubectl") ["create", "namespace", "cert-manager"],
   Event.print ("   ℹ️  Using default values (no custom values file found)"),
   Event.runCmd ("helm") certManagerBaseArgs,
   Event.sleep 30,
   Event.runCmd ("kubectl") ["wait", "--for=condition=ready", "pod",
     "-l", "app.kubernetes.io/instance=cert-manager", "-n", "cert-manager",
     "--timeout=300s"]]
  ++ certIssuerStepEvents fs
  ++ [Event.print ("✅ Cert-manager installed via Helm")]

/-- Full trace of install_ingress_controller_helm when every
collaborator call succeeds with empty output and the external values
file exists. -/
def ingressTraceWithValues : List Event :=
  [Event.print ("\n🌐 Installing NGINX Ingress via Helm..."),
   Event.runCmd ("kubectl") ["create", "namespace", "ingress-nginx"],
   Event.runCmd ("helm") (ingressBaseArgs ++ ["--values", get_values_file ("ingress-nginx")]),
   Event.sleep 20,
   Event.runCmd ("kubectl") ["wait", "--namespace", "ingress-nginx",
     "--for=condition=ready", "pod",
     "--selector=app.kubernetes.io/component=controller", "--timeout=300s"],
   Event.print ("✅ NGINX Ingress installed via Helm")]

/-- Full trace of install_ingress_controller_helm when every
collaborator call succeeds with empty output and the external values
file is absent: the built-in --set overrides are used instead. -/
def ingressTraceDefault : List Event :=
  [Event.print ("\n🌐 Installing NGINX Ingress via Helm..."),
   Event.runCmd ("kubectl") ["create", "namespace", "ingress-nginx"],
   Event.print ("   ℹ️  Using default values"),
   Event.runCmd ("helm") ingressDefaultArgs,
   Event.sleep 20,
   Event.runCmd ("kubectl") ["wait", "--namespace", "ingress-nginx",
     "--for=condition=ready", "pod",
     "--selector=app.kubernetes.io/component=controller", "--timeout=300s"],
   Event.print ("✅ NGINX Ingress installed via Helm")]

/-- Full trace of install_monitoring_stack_helm when every collaborator
call succeeds with empty output and the external values file exists. -/
def monitoringTraceWithValues : List Event :=
  [Event.print ("\n📊 Installing kube-prometheus-stack via Helm..."),
   Event.runCmd ("kubectl") ["create", "namespace", "monitoring"],
   Event.runCmd ("helm")
     (monitoringBaseArgs ++ ["--values", get_values_file ("kube-prometheus-stack")]),
   Event.sleep 30,
   Event.print ("✅ Monitoring stack installed via Helm")]

/-- Full trace of install_monitoring_stack_helm when every collaborator
call succeeds with empty output and the external values file is absent:
the step notes the fallback and installs with the built-in arguments
alone. -/
def monitoringTraceDefault : List Event :=
  [Event.print ("\n📊 Installing kube-prometheus-stack via Helm..."),
   Event.runCmd ("kubectl") ["create", "namespace", "monitoring"],
   Event.print ("   ℹ️  Using default values"),
   Event.runCmd ("helm") monitoringBaseArgs,
   Event.sleep 30,
   Event.print ("✅ Monitoring stack installed via Helm")]

/-- Full trace of install_logging_stack_helm when every collaborator
call succeeds with empty output, as a function of whether each of the
three external values files (elasticsearch, fluentd, kibana) exists:
an existing file is passed verbatim to its install invocation, an
absent one falls back to the built-in payload (--set overrides for
elasticsearch, the collaborator's defaults for fluentd and kibana). -/
def loggingTrace (es fl kb : Bool) : List Event :=
  [Event.print ("\n📝 Installing EFK stack via Helm..."),
   Event.runCmd ("kubectl") ["create", "namespace", "logging"],
   Event.print ("   Installing Elasticsearch..."),
   Event.runCmd ("helm")
     (if es then esBaseArgs ++ ["--values", get_values_file ("elasticsearch")]
      else esBaseArgs ++ ["--set", "replicas=1", "--set", "minimumMasterNodes=1"]),
   Event.sleep 30,
   Event.print ("   Installing Fluentd..."),
   Event.runCmd ("helm")
     (if fl then fluentdBaseArgs ++ ["--values", get_values_file ("fluentd")]
      else fluentdBaseArgs),
   Event.print ("   Installing Kibana..."),
   Event.runCmd ("helm")
     (if kb then kibanaBaseArgs ++ ["--values", get_values_file ("kibana")]
      else kibanaBaseArgs),
   Event.print ("✅ EFK stack installed via Helm")]

/-- Full trace of install_argocd_helm when every collaborator call
succeeds with empty output and the external values file exists. -/
def argocdTraceWithValues : List Event :=
  [Event.print ("\n🔄 Installing ArgoCD via Helm..."),
   Event.runCmd ("kubectl") ["create", "namespace", "argocd"],
   Event.runCmd ("helm") (argocdBaseArgs ++ ["--values", get_values_file ("argocd")]),
   Event.sleep 30,
   Event.runCmd ("kubectl") ["wait", "--namespace", "argocd",
     "--for=condition=ready", "pod",
     "--selector=app.kubernetes.io/name=argocd-server", "--timeout=300s"],
   Event.print ("✅ ArgoCD installed via Helm")]

/-- Full trace of install_argocd_helm when every collaborator call
succeeds with empty output and the external values file is absent: the
step notes the fallback and installs with the built-in arguments alone.
-/
def argocdTraceDefault : List Event :=
  [Event.print ("\n🔄 Installing ArgoCD via Helm..."),
   Event.runCmd ("kubectl") ["create", "namespace", "argocd"],
   Event.print ("   ℹ️  Using default values"),
   Event.runCmd ("helm") argocdBaseArgs,
   Event.sleep 30,
   Event.runCmd ("kubectl") ["wait", "--namespace", "argocd",
     "--for=condition=ready", "pod",
     "--selector=app.kubernetes.io/name=argocd-server", "--timeout=300s"],
   Event.print ("✅ ArgoCD installed via Helm")]

/-- A world in which every external values file exists. -/
def allValuesState : RunState :=
  ⟨⟨[get_values_file ("cert-manager"), get_values_file ("ingress-nginx"),
     get_values_file ("kube-prometheus-stack"), get_values_file ("elasticsearch"),
     get_values_file ("fluentd"), get_values_file ("kibana"),
     get_values_file ("argocd")]⟩, []⟩

/-- The paths created by ensure_helm_values_dir when the values
directory is absent, in creation order (three directories, seven values
files, five chart files, four manifest files). -/
def helmValuesCreatedPaths : List String :=
  [HELM_VALUES_DIR,
   HELM_VALUES_DIR ++ "/charts/sample-nginx/templates",
   HELM_VALUES_DIR ++ "/manifests",
   get_values_file ("cert-manager"),
   get_values_file ("ingress-nginx"),
   get_values_file ("kube-prometheus-stack"),
   get_values_file ("elasticsearch"),
   get_values_file ("fluentd"),
   get_values_file ("kibana"),
   get_values_file ("argocd"),
   HELM_VALUES_DIR ++ "/charts/sample-nginx/Chart.yaml",
   HELM_VALUES_DIR ++ "/charts/sample-nginx/values.yaml",
   HELM_VALUES_DIR ++ "/charts/sample-nginx/templates/deployment.yaml",
   HELM_VALUES_DIR ++ "/charts/sample-nginx/templates/service.yaml",
   HELM_VALUES_DIR ++ "/charts/sample-nginx/templates/ingress.yaml",
   HELM_VALUES_DIR ++ "/manifests/cert-issuer.yaml",
   HELM_VALUES_DIR ++ "/manifests/namespaces.yaml",
   HELM_VALUES_DIR ++ "/manifests/network-policies.yaml",
   HELM_VALUES_DIR ++ "/manifests/resource-quotas.yaml"]

/-- A world in which only the two values files for cert-manager and
ingress-nginx exist. -/
def valuesOnlyState : RunState :=
  ⟨⟨[get_values_file ("cert-manager"), get_values_file ("ingress-nginx")]⟩, []⟩

/-- A world in which the helm values directory exists (so the
values-directory check has nothing to create). -/
def helmDirState : RunState := ⟨⟨[HELM_VALUES_DIR]⟩, []⟩

/-- An environment in which spawning kubectl get nodes fails while
every other collaborator call succeeds. -/
def getNodesFailEnv : Env :=
  { exec := fun _ a => if a = ["get", "nodes", "-o", "wide"] then ExecResult.spawnFail
      else ExecResult.ran okOut,
    applyExec := fun _ => ExecResult.ran okOut }

/-- The error message produced by the embedded utils::run when the
kubectl get nodes spawn fails. -/
def getNodesFailMsg : String := "failed to run: kubectl get nodes -o wide"

/-- An environment in which no collaborator process can be spawned at
all. -/
def spawnFailEnv : Env :=
  { exec := fun _ _ => ExecResult.spawnFail,
    applyExec := fun _ => ExecResult.spawnFail }

/-- In-range caller input for the Prod subcommand. -/
def goodArgs : RawProdArgs :=
  { name := "prod", servers := 3, agents := 3,
    skip_monitoring := true, skip_logging := false, skip_argocd := true }

/-- Out-of-range caller input (300 does not fit in a u8). -/
def badArgs : RawProdArgs :=
  { name := "prod", servers := 300, agents := 3,
    skip_monitoring := false, skip_logging := false, skip_argocd := false }

/-- Every event create_sample_nginx_chart can emit. -/
def sampleChartEvs : List Event :=
  [Event.writeFile ((HELM_VALUES_DIR ++ "/charts/sample-nginx") ++ "/Chart.yaml"),
   Event.writeFile ((HELM_VALUES_DIR ++ "/charts/sample-nginx") ++ "/values.yaml"),
   Event.writeFile ((HELM_VALUES_DIR ++ "/charts/sample-nginx") ++ "/templates/deployment.yaml"),
   Event.writeFile ((HELM_VALUES_DIR ++ "/charts/sample-nginx") ++ "/templates/service.yaml"),
   Event.writeFile ((HELM_VALUES_DIR ++ "/charts/sample-nginx") ++ "/templates/ingress.yaml")]

/-- Every event create_default_values_files can emit. -/
def defaultValuesEvs : List Event :=
  [Event.writeFile (get_values_file ("cert-manager")),
   Event.writeFile (get_values_file ("ingress-nginx")),
   Event.writeFile (get_values_file ("kube-prometheus-stack")),
   Event.writeFile (get_values_file ("elasticsearch")),
   Event.writeFile (get_values_file ("fluentd")),
   Event.writeFile (get_values_file ("kibana")),
   Event.writeFile (get_values_file ("argocd"))]
  ++ sampleChartEvs
  ++ [Event.writeFile (HELM_VALUES_DIR ++ "/manifests/cert-issuer.yaml"),
      Event.writeFile (HELM_VALUES_DIR ++ "/manifests/namespaces.yaml"),
      Event.writeFile (HELM_VALUES_DIR ++ "/manifests/network-policies.yaml"),
      Event.writeFile (HELM_VALUES_DIR ++ "/manifests/resource-quotas.yaml")]

/-- Every event ensure_helm_values_dir can emit. -/
def ensureDirEvs : List Event :=
  [Event.print ("⚠️  Warning: Helm values directory not found at \x27"
     ++ HELM_VALUES_DIR ++ "\x27"),
   Event.print ("   Creating directory structure..."),
   Event.createDir HELM_VALUES_DIR,
   Event.createDir (HELM_VALUES_DIR ++ "/charts/sample-nginx/templates"),
   Event.createDir (HELM_VALUES_DIR ++ "/manifests")]
  ++ defaultValuesEvs
  ++ [Event.print ("   ✅ Created " ++ HELM_VALUES_DIR ++ " with default values files")]

/-- Every event create_k3d_config can emit. -/
def k3dConfigEvs : List Event :=
  [Event.writeFile ("/tmp/k3d-prod-config.yaml"),
   Event.print ("✅ Created k3d configuration")]

/-- Every event bootstrap_preamble can emit. -/
def preambleEvs (config : ProdClusterConfig) : List Event :=
  [Event.print ("🚀 Building production-like k3d cluster: " ++ config.name),
   Event.print ("📋 Configuration:"),
   Event.print ("   Control Plane Nodes: " ++ toString config.servers),
   Event.print ("   Worker Nodes: " ++ toString config.agents),
   Event.print ("   Monitoring: " ++ (if config.install_monitoring then "✓" else "✗")),
   Event.print ("   Logging: " ++ (if config.install_logging then "✓" else "✗")),
   Event.print ("   ArgoCD: " ++ (if config.install_argocd then "✓" else "✗")),
   Event.print ("\n⚠️  Warning: Helm is not installed!"),
   Event.print ("   Install with: brew install helm (macOS) or curl https://raw.githubusercontent.com/helm/helm/main/scripts/get-helm-3 | bash"),
   Event.print ("   Continuing with cluster creation only...\n")]
  ++ ensureDirEvs ++ k3dConfigEvs

/-- Every event cluster_create_block can emit. -/
def clusterCreateEvs (config : ProdClusterConfig) : List Event :=
  [Event.print ("\n🏗️  Creating HA cluster..."),
   Event.runCmd ("k3d") ["cluster", "create", config.name,
     "--config", "/tmp/k3d-prod-config.yaml"],
   Event.print ("✅ Cluster created! Waiting for nodes..."),
   Event.sleep 10,
   Event.runCmd ("kubectl") ["get", "nodes", "-o", "wide"]]

/-- Every event setup_helm_repos can emit. -/
def helmReposEvs : List Event :=
  [Event.print ("\n📚 Adding Helm repositories..."),
   Event.runCmd ("helm") ["repo", "add", "jetstack", "https://charts.jetstack.io"],
   Event.runCmd ("helm") ["repo", "add", "ingress-nginx",
     "https://kubernetes.github.io/ingress-nginx"],
   Event.runCmd ("helm") ["repo", "add", "prometheus-community",
     "https://prometheus-community.github.io/helm-charts"],
   Event.runCmd ("helm") ["repo", "add", "elastic", "https://helm.elastic.co"],
   Event.runCmd ("helm") ["repo", "add", "fluent", "https://fluent.github.io/helm-charts"],
   Event.runCmd ("helm") ["repo", "add", "argo", "https://argoproj.github.io/argo-helm"],
   Event.runCmd ("helm") ["repo", "update"],
   Event.print ("✅ Helm repositories configured")]

/-- Every event install_cert_manager_helm can emit. -/
def certManagerEvs : List Event :=
  [Event.print ("\n🔐 Installing cert-manager via Helm..."),
   Event.runCmd ("kubectl") ["create", "namespace", "cert-manager"],
   Event.print ("   ℹ️  Using default values (no custom values file found)"),
   Event.runCmd ("helm") (certManagerBaseArgs ++ ["--values", get_values_file ("cert-manager")]),
   Event.runCmd ("helm") certManagerBaseArgs,
   Event.sleep 30,
   Event.runCmd ("kubectl") ["wait", "--for=condition=ready", "pod",
     "-l", "app.kubernetes.io/instance=cert-manager", "-n", "cert-manager",
     "--timeout=300s"],
   Event.runCmd ("kubectl") ["apply", "-f", get_manifest_file ("cert-issuer")],
   Event.applyManifest certIssuerInline,
   Event.print ("✅ Cert-manager installed via Helm")]

/-- Every event install_ingress_controller_helm can emit. -/
def ingressEvs : List Event :=
  [Event.print ("\n🌐 Installing NGINX Ingress via Helm..."),
   Event.runCmd ("kubectl") ["create", "namespace", "ingress-nginx"],
   Event.print ("   ℹ️  Using default values"),
   Event.runCmd ("helm") (ingressBaseArgs ++ ["--values", get_values_file ("ingress-nginx")]),
   Event.runCmd ("helm") ingressDefaultArgs,
   Event.sleep 20,
   Event.runCmd ("kubectl") ["wait", "--namespace", "ingress-nginx",
     "--for=condition=ready", "pod",
     "--selector=app.kubernetes.io/component=controller", "--timeout=300s"],
   Event.print ("✅ NGINX Ingress installed via Helm")]

/-- Every event install_monitoring_stack_helm can emit. -/
def monitoringEvs : List Event :=
  [Event.print ("\n📊 Installing kube-prometheus-stack via Helm..."),
   Event.runCmd ("kubectl") ["create", "namespace", "monitoring"],
   Event.print ("   ℹ️  Using default values"),
   Event.runCmd ("helm") (monitoringBaseArgs ++ ["--values", get_values_file ("kube-prometheus-stack")]),
   Event.runCmd ("helm") monitoringBaseArgs,
   Event.sleep 30,
   Event.print ("✅ Monitoring stack installed via Helm")]

/-- Every event install_logging_stack_helm can emit. -/
def loggingEvs : List Event :=
  [Event.print ("\n📝 Installing EFK stack via Helm..."),
   Event.runCmd ("kubectl") ["create", "namespace", "logging"],
   Event.print ("   Installing Elasticsearch..."),
   Event.runCmd ("helm") (esBaseArgs ++ ["--values", get_values_file ("elasticsearch")]),
   Event.runCmd ("helm") (esBaseArgs ++ ["--set", "replicas=1", "--set", "minimumMasterNodes=1"]),
   Event.sleep 30,
   Event.print ("   Installing Fluentd..."),
   Event.runCmd ("helm") (fluentdBaseArgs ++ ["--values", get_values_file ("fluentd")]),
   Event.runCmd ("helm") fluentdBaseArgs,
   Event.print ("   Installing Kibana..."),
   Event.runCmd ("helm") (kibanaBaseArgs ++ ["--values", get_values_file ("kibana")]),
   Event.runCmd ("helm") kibanaBaseArgs,
   Event.print ("✅ EFK stack installed via Helm")]

/-- Every event install_argocd_helm can emit. -/
def argocdEvs : List Event :=
  [Event.print ("\n🔄 Installing ArgoCD via Helm..."),
   Event.runCmd ("kubectl") ["create", "namespace", "argocd"],
   Event.print ("   ℹ️  Using default values"),
   Event.runCmd ("helm") (argocdBaseArgs ++ ["--values", get_values_file ("argocd")]),
   Event.runCmd ("helm") argocdBaseArgs,
   Event.sleep 30,
   Event.runCmd ("kubectl") ["wait", "--namespace", "argocd",
     "--for=condition=ready", "pod",
     "--selector=app.kubernetes.io/name=argocd-server", "--timeout=300s"],
   Event.print ("✅ ArgoCD installed via Helm")]

/-- Every event deploy_sample_app_helm can emit. -/
def sampleAppEvs : List Event :=
  [Event.print ("\n🚀 Deploying sample NGINX app..."),
   Event.runCmd ("helm") ["install", "sample-nginx", HELM_VALUES_DIR ++ "/charts/sample-nginx",
     "--namespace", "production", "--create-namespace"],
   Event.print ("   ℹ️  Custom chart not found, deploying basic NGINX with kubectl..."),
   Event.applyManifest basicNginxInline,
   Event.sleep 10,
   Event.print ("✅ Sample NGINX app deployed")]

/-- Every event setup_namespaces can emit. -/
def namespacesEvs : List Event :=
  [Event.print ("\n📂 Creating application namespaces..."),
   Event.runCmd ("kubectl") ["apply", "-f", get_manifest_file ("namespaces")],
   Event.applyManifest namespacesInline,
   Event.print ("✅ Namespaces created")]

/-- Every event setup_network_policies can emit. -/
def networkPoliciesEvs : List Event :=
  [Event.print ("\n🔒 Setting up network policies..."),
   Event.runCmd ("kubectl") ["apply", "-f", get_manifest_file ("network-policies")],
   Event.applyManifest networkPoliciesInline,
   Event.print ("✅ Network policies applied")]

/-- Every event setup_resource_quotas can emit. -/
def resourceQuotasEvs : List Event :=
  [Event.print ("\n💾 Setting up resource quotas..."),
   Event.runCmd ("kubectl") ["apply", "-f", get_manifest_file ("resource-quotas")],
   Event.applyManifest resourceQuotasInline,
   Event.print ("✅ Resource quotas set")]

/-- Every event print_basic_access_info can emit. -/
def basicInfoEvs (cluster_name : String) : List Event :=
  [Event.print ("\n" ++ sepLine),
   Event.print ("🎯 Access Information for \x27" ++ cluster_name ++ "\x27:"),
   Event.print (sepLine),
   Event.print ("\n📦 Basic cluster created (Helm components not installed)"),
   Event.print ("\n🔍 Useful Commands:"),
   Event.print ("  kubectl get pods -A"),
   Event.print ("  kubectl config use-context k3d-" ++ cluster_name),
   Event.print ("  k3d cluster delete " ++ cluster_name),
   Event.print ("\n💡 To install Helm components, first install Helm:"),
   Event.print ("  macOS:   brew install helm"),
   Event.print ("  Linux:   curl https://raw.githubusercontent.com/helm/helm/main/scripts/get-helm-3 | bash"),
   Event.print ("  Windows: choco install kubernetes-helm"),
   Event.print ("\n" ++ sepLine)]

/-- Every event print_access_info can emit. -/
def accessInfoEvs (cluster_name : String) : List Event :=
  [Event.print ("\n" ++ sepLine),
   Event.print ("🎯 Access Information for \x27" ++ cluster_name ++ "\x27:"),
   Event.print (sepLine),
   Event.print ("\n📊 Monitoring:"),
   Event.print ("  Prometheus: http://localhost:9090"),
   Event.print ("  Grafana:    http://localhost:3000 (admin/admin)"),
   Event.print ("\n📝 Logging:"),
   Event.print ("  Kibana:     http://localhost:5601"),
   Event.print ("\n🔄 GitOps:"),
   Event.print ("  ArgoCD:     http://localhost:8080 (admin)"),
   Event.print ("  Password:   kubectl -n argocd get secret argocd-initial-admin-secret -o jsonpath=\"\x7b.data.password\x7d\" | base64 -d"),
   Event.print ("\n🌐 Sample App:"),
   Event.print ("  Add to /etc/hosts: 127.0.0.1 nginx.local"),
   Event.print ("  Then visit: http://nginx.local"),
   Event.print ("\n📦 Installed Helm Releases:"),
   Event.print ("  helm list -A"),
   Event.print ("\n🔍 Useful Commands:"),
   Event.print ("  kubectl get pods -A"),
   Event.print ("  kubectl config use-context k3d-" ++ cluster_name),
   Event.print ("  helm list -n monitoring"),
   Event.print ("  k3d cluster delete " ++ cluster_name),
   Event.print ("\n📁 Configuration Files:"),
   Event.print ("  Helm values: " ++ HELM_VALUES_DIR),
   Event.print ("  Edit values: vim " ++ HELM_VALUES_DIR ++ "/cert-manager.yaml"),
   Event.print ("\n" ++ sepLine)]

/-- Every event bootstrap_postamble can emit (either summary variant).
-/
def postambleEvs (config : ProdClusterConfig) : List Event :=
  [Event.print ("\n🎉 Production cluster \x27" ++ config.name ++ "\x27 is ready!"),
   Event.print ("\n✅ Basic cluster \x27" ++ config.name ++ "\x27 is ready!")]
  ++ accessInfoEvs config.name ++ basicInfoEvs config.name

/-- Every event branch_basic can emit. -/
def branchBasicEvs (config : ProdClusterConfig) : List Event :=
  [Event.print ("\n⚠️  Skipping Helm installations (Helm not available)")]
  ++ namespacesEvs
  ++ [Event.print ("\n✅ Basic cluster \x27" ++ config.name ++ "\x27 is ready!")]
  ++ basicInfoEvs config.name

/-- Every event the reduced (helm unavailable) run can emit, apart from
stdout passthrough. -/
def basicAllEvs (config : ProdClusterConfig) : List Event :=
  preambleEvs config ++ clusterCreateEvs config ++ branchBasicEvs config

/-- Every event any run can emit apart from stdout passthrough and the
monitoring step's own events. -/
def nonMonitoringEvs (config : ProdClusterConfig) : List Event :=
  preambleEvs config ++ clusterCreateEvs config ++ branchBasicEvs config
  ++ [Event.print ("\n📦 Installing core components via Helm...")]
  ++ helmReposEvs ++ certManagerEvs ++ ingressEvs ++ loggingEvs ++ argocdEvs
  ++ namespacesEvs ++ networkPoliciesEvs ++ resourceQuotasEvs ++ sampleAppEvs
  ++ postambleEvs config

/-- Every event any run can emit apart from stdout passthrough and the
logging step's own events. -/
def nonLoggingEvs (config : ProdClusterConfig) : List Event :=
  preambleEvs config ++ clusterCreateEvs config ++ branchBasicEvs config
  ++ [Event.print ("\n📦 Installing core components via Helm...")]
  ++ helmReposEvs ++ certManagerEvs ++ ingressEvs ++ monitoringEvs ++ argocdEvs
  ++ namespacesEvs ++ networkPoliciesEvs ++ resourceQuotasEvs ++ sampleAppEvs
  ++ postambleEvs config

/-- Every event any run can emit apart from stdout passthrough and the
ArgoCD step's own events. -/
def nonArgocdEvs (config : ProdClusterConfig) : List Event :=
  preambleEvs config ++ clusterCreateEvs config ++ branchBasicEvs config
  ++ [Event.print ("\n📦 Installing core components via Helm...")]
  ++ helmReposEvs ++ certManagerEvs ++ ingressEvs ++ monitoringEvs ++ loggingEvs
  ++ namespacesEvs ++ networkPoliciesEvs ++ resourceQuotasEvs ++ sampleAppEvs
  ++ postambleEvs config

/-- The exact event trace of the reduced (helm unavailable) run when
every collaborator call succeeds with empty output, as a function of
the initial filesystem (which decides the namespaces fallback). -/
def basicRunTrace (config : ProdClusterConfig) (fs : FS) : List Event :=
  [Event.print ("🚀 Building production-like k3d cluster: " ++ config.name),
   Event.print ("📋 Configuration:"),
   Event.print ("   Control Plane Nodes: " ++ toString config.servers),
   Event.print ("   Worker Nodes: " ++ toString config.agents),
   Event.print ("   Monitoring: " ++ (if config.install_monitoring then "✓" else "✗")),
   Event.print ("   Logging: " ++ (if config.install_logging then "✓" else "✗")),
   Event.print ("   ArgoCD: " ++ (if config.install_argocd then "✓" else "✗")),
   Event.print ("\n⚠️  Warning: Helm is not installed!"),
   Event.print ("   Install with: brew install helm (macOS) or curl https://raw.githubusercontent.com/helm/helm/main/scripts/get-helm-3 | bash"),
   Event.print ("   Continuing with cluster creation only...\n"),
   Event.writeFile ("/tmp/k3d-prod-config.yaml"),
   Event.print ("✅ Created k3d configuration"),
   Event.print ("\n🏗️  Creating HA cluster..."),
   Event.runCmd ("k3d") ["cluster", "create", config.name,
     "--config", "/tmp/k3d-prod-config.yaml"],
   Event.print ("✅ Cluster created! Waiting for nodes..."),
   Event.sleep 10,
   Event.runCmd ("kubectl") ["get", "nodes", "-o", "wide"],
   Event.print ("\n⚠️  Skipping Helm installations (Helm not available)"),
   Event.print ("\n📂 Creating application namespaces...")]
  ++ (if pathExists fs (get_manifest_file ("namespaces")) then
        [Event.runCmd ("kubectl") ["apply", "-f", get_manifest_file ("namespaces")]]
      else [Event.applyManifest namespacesInline])
  ++ [Event.print ("✅ Namespaces created"),
      Event.print ("\n✅ Basic cluster \x27" ++ config.name ++ "\x27 is ready!")]
  ++ basicInfoEvs config.name


/- ------------------------------------------------------------------
   Theorems.  First the monad calculus of M, then the sequencer lemmas,
   then the refinement of create_prod_cluster by the report view, then
   the frame (EmitsOnly) calculus, and finally one theorem per claim.
   ------------------------------------------------------------------ -/

/-- Unfolding of bind at a state. -/
theorem bind_apply {α β : Type} (x : M α) (f : α → M β) (s : RunState) :
    (x >>= f) s =
      (match x s with
       | (s1, Except.ok a) => f a s1
       | (s1, Except.error e) => (s1, Except.error e)) := rfl

/-- Unfolding of pure at a state. -/
theorem pure_apply {α : Type} (a : α) (s : RunState) :
    (Pure.pure a : M α) s = (s, Except.ok a) := rfl

/-- Failure short-circuit: if the first action fails, the whole bind
fails at the same world — nothing after the failure point runs. -/
theorem bind_error {α β : Type} (x : M α) (f : α → M β) (s s1 : RunState)
    (e : String) (h : x s = (s1, Except.error e)) :
    (x >>= f) s = (s1, Except.error e) := by
  rw [bind_apply, h]

/-- Success threading: if the first action succeeds, the bind continues
with the continuation from the action's final world. -/
theorem bind_ok {α β : Type} (x : M α) (f : α → M β) (s s1 : RunState)
    (a : α) (h : x s = (s1, Except.ok a)) :
    (x >>= f) s = f a s1 := by
  rw [bind_apply, h]

/-- Associativity of bind for M. -/
theorem m_bind_assoc {α β γ : Type} (x : M α) (f : α → M β) (g : β → M γ) :
    ((x >>= f) >>= g) = (x >>= fun a => f a >>= g) := by
  funext s
  rcases h : x s with ⟨s1, r⟩
  cases r with
  | ok a =>
    rw [bind_ok x (fun a => f a >>= g) s s1 a h]
    rw [bind_apply (x >>= f) g s, bind_ok x f s s1 a h]
    rw [bind_apply (f a) g s1]
  | error e =>
    rw [bind_error x (fun a => f a >>= g) s s1 e h,
        bind_error (x >>= f) g s s1 e (bind_error x f s s1 e h)]

/-- Right identity of bind for M. -/
theorem m_bind_pure {α : Type} (x : M α) :
    (x >>= fun a => (Pure.pure a : M α)) = x := by
  funext s
  rw [bind_apply]
  rcases h : x s with ⟨s1, r⟩
  cases r with
  | ok a => rfl
  | error e => rfl

/-- Right identity, Unit form (the shape execList produces). -/
theorem m_bind_unit (x : M Unit) :
    (x >>= fun _ => (Pure.pure () : M Unit)) = x := by
  have h : (fun (_ : Unit) => (Pure.pure () : M Unit)) =
      fun (a : Unit) => (Pure.pure a : M Unit) := by
    funext u; cases u; rfl
  rw [h, m_bind_pure]

/-- Sequencing a gated step list and then a continuation is the
sequencer view: an error in the list freezes the world there and skips
the continuation; otherwise the continuation runs from the list's final
world. -/
theorem execList_then (post : M Unit) :
    ∀ (steps : List (String × Bool × M Unit)) (s : RunState),
      (execList steps >>= fun _ => post) s =
        (match runSteps steps s with
         | (s2, _, some e) => (s2, Except.error e)
         | (s2, _, none) => post s2) := by
  intro steps
  induction steps with
  | nil => intro s; rfl
  | cons p rest ih =>
    obtain ⟨n, enabled, act⟩ := p
    intro s
    cases enabled with
    | false =>
      have hl : execList ((n, false, act) :: rest) =
          ((pure () : M Unit) >>= fun _ => execList rest) := by
        simp only [execList, Bool.false_eq_true, if_false]
      rw [hl, m_bind_assoc]
      have hp : (((pure () : M Unit) >>= fun _ => (execList rest >>= fun _ => post)) s) =
          ((execList rest >>= fun _ => post) s) := rfl
      rw [hp, ih]
      simp only [runSteps, Bool.false_eq_true, if_false]
      rcases hr : runSteps rest s with ⟨s2, res, e?⟩
      cases e? <;> rfl
    | true =>
      have hl : execList ((n, true, act) :: rest) =
          (act >>= fun _ => execList rest) := by
        simp only [execList, if_true]
      rw [hl, m_bind_assoc]
      rcases ha : act s with ⟨s1, r⟩
      cases r with
      | error e =>
        rw [bind_error act (fun _ => execList rest >>= fun _ => post) s s1 e ha]
        simp only [runSteps, if_true, ha]
      | ok a =>
        rw [bind_ok act (fun _ => execList rest >>= fun _ => post) s s1 a ha]
        rw [ih]
        simp only [runSteps, if_true, ha]
        rcases hr : runSteps rest s1 with ⟨s2, res, e?⟩
        cases e? <;> rfl

/-- Decomposition of the sequencer over list concatenation: a failure
in the first segment freezes the run (the second segment contributes
nothing, and the first segment's outcomes are returned unchanged);
otherwise the second segment continues from the first's final world and
the outcome lists concatenate. -/
theorem runSteps_append (xs ys : List (String × Bool × M Unit)) :
    ∀ s : RunState,
      runSteps (xs ++ ys) s =
        (match runSteps xs s with
         | (s1, res, some e) => (s1, res, some e)
         | (s1, res, none) =>
           ((runSteps ys s1).1, res ++ (runSteps ys s1).2.1, (runSteps ys s1).2.2)) := by
  induction xs with
  | nil => intro s; rfl
  | cons p rest ih =>
    obtain ⟨n, enabled, act⟩ := p
    intro s
    cases enabled with
    | false =>
      simp only [List.cons_append, runSteps, Bool.false_eq_true, if_false]
      rw [show List.append rest ys = rest ++ ys from rfl, ih s]
      rcases hr : runSteps rest s with ⟨s1, res, e?⟩
      cases e? <;> rfl
    | true =>
      simp only [List.cons_append, runSteps, if_true]
      rw [show List.append rest ys = rest ++ ys from rfl]
      rcases ha : act s with ⟨s1, r⟩
      cases r with
      | error e => rfl
      | ok a =>
        dsimp only
        rw [ih s1]
        rcases hr : runSteps rest s1 with ⟨s2, res, e?⟩
        cases e? <;> rfl

/-- Left identity of bind for M. -/
theorem pure_bind_m {α β : Type} (a : α) (f : α → M β) :
    ((Pure.pure a : M α) >>= f) = f a := rfl

/-- Unfolding of emit at a state. -/
theorem emit_apply (ev : Event) (s : RunState) :
    emit ev s = ({ s with events := s.events ++ [ev] }, Except.ok ()) := rfl

/-- Unfolding of pathExistsM at a state. -/
theorem pathExistsM_apply (p : String) (s : RunState) :
    pathExistsM p s = (s, Except.ok (pathExists s.fs p)) := rfl

/-- Unfolding of fsWrite at a state. -/
theorem fsWrite_apply (p : String) (s : RunState) :
    fsWrite p s =
      (⟨⟨s.fs.paths ++ [p]⟩, s.events ++ [Event.writeFile p]⟩, Except.ok ()) := rfl

/-- Unfolding of fsCreateDirAll at a state. -/
theorem fsCreateDirAll_apply (p : String) (s : RunState) :
    fsCreateDirAll p s =
      (⟨⟨s.fs.paths ++ [p]⟩, s.events ++ [Event.createDir p]⟩, Except.ok ()) := rfl

/-- Unfolding of sleepSecs at a state. -/
theorem sleepSecs_apply (n : Nat) (s : RunState) :
    sleepSecs n s = ({ s with events := s.events ++ [Event.sleep n] }, Except.ok ()) := rfl

/-- Unfolding of throwM at a state. -/
theorem throwM_apply {α : Type} (msg : String) (s : RunState) :
    (throwM msg : M α) s = (s, Except.error msg) := rfl

/-- Behaviour of the embedded utils::run at a state, by case on the
collaborator outcome: an event for the spawn attempt, then error on
spawn failure or non-zero exit, a stdout passthrough on success with
non-empty output. -/
theorem run_apply (env : Env) (cmd : String) (args : List String) (s : RunState) :
    run env cmd args s =
      (match env.exec cmd args with
       | ExecResult.spawnFail =>
           ({ s with events := s.events ++ [Event.runCmd cmd args] },
            Except.error ("failed to run: " ++ cmd ++ " "
              ++ String.intercalate (" ") args))
       | ExecResult.ran out =>
           if out.success = false then
             ({ s with events := s.events ++ [Event.runCmd cmd args] },
              Except.error ("Command failed: " ++ cmd ++ " "
                ++ String.intercalate (" ") args ++ "\nstderr: " ++ out.stderr))
           else if out.stdout = "" then
             ({ s with events := s.events ++ [Event.runCmd cmd args] }, Except.ok ())
           else
             ({ s with events := (s.events ++ [Event.runCmd cmd args])
                 ++ [Event.printOut out.stdout] }, Except.ok ())) := by
  rcases h : env.exec cmd args with _ | out
  · simp only [run, h, bind_apply, emit_apply]
    rfl
  · simp only [run, h, bind_apply, emit_apply]
    split
    · rfl
    · split <;> rfl

/-- Behaviour of the embedded utils::apply_manifest at a state. -/
theorem apply_manifest_apply (env : Env) (manifest : String) (s : RunState) :
    apply_manifest env manifest s =
      (match env.applyExec manifest with
       | ExecResult.spawnFail =>
           ({ s with events := s.events ++ [Event.applyManifest manifest] },
            Except.error ("Failed to spawn kubectl"))
       | ExecResult.ran out =>
           if out.success = false then
             ({ s with events := s.events ++ [Event.applyManifest manifest] },
              Except.error ("kubectl apply failed:\n" ++ out.stderr))
           else
             ({ s with events := s.events ++ [Event.applyManifest manifest] },
              Except.ok ())) := by
  rcases h : env.applyExec manifest with _ | out
  · simp only [apply_manifest, h, bind_apply, emit_apply]
    rfl
  · simp only [apply_manifest, h, bind_apply, emit_apply]
    split <;> rfl

/-- The reduced branch is the sequencer run of its step list followed
by the basic postamble. -/
theorem branch_basic_eq (env : Env) (config : ProdClusterConfig) (s : RunState) :
    branch_basic env config s =
      (match runSteps (basicStepsList env) s with
       | (s2, _, some e) => (s2, Except.error e)
       | (s2, _, none) => bootstrap_postamble config false s2) := by
  have h1 : branch_basic env config =
      (execList (basicStepsList env) >>= fun _ => bootstrap_postamble config false) := by
    simp [branch_basic, basicStepsList, execList, m_bind_assoc, pure_bind_m]
  rw [h1, execList_then]

/-- The full branch is the sequencer run of its step list followed by
the full postamble. -/
theorem branch_full_eq (env : Env) (config : ProdClusterConfig) (s : RunState) :
    branch_full env config s =
      (match runSteps (fullStepsList env config) s with
       | (s2, _, some e) => (s2, Except.error e)
       | (s2, _, none) => bootstrap_postamble config true s2) := by
  have h1 : branch_full env config =
      (execList (fullStepsList env config) >>= fun _ => bootstrap_postamble config true) := by
    simp [branch_full, fullStepsList, execList, m_bind_assoc, pure_bind_m]
  rw [h1, execList_then]

/-- Refinement: create_prod_cluster agrees with the bootstrap_report
view on the final world and on the returned result; the report
additionally carries the ordered per-step outcomes. -/
theorem create_eq_report (env : Env) (config : ProdClusterConfig) (s : RunState) :
    create_prod_cluster env config s =
      ((bootstrap_report env config s).1, (bootstrap_report env config s).2.2) := by
  have hdef : create_prod_cluster env config =
      (bootstrap_preamble env config >>= fun helm_available =>
        cluster_create_block env config >>= fun _ =>
        if helm_available = false then branch_basic env config
        else branch_full env config) := rfl
  rw [hdef]
  rcases hp : bootstrap_preamble env config s with ⟨s1, r1⟩
  cases r1 with
  | error e =>
    rw [bind_error _ _ s s1 e hp]
    simp only [bootstrap_report, hp]
  | ok helm =>
    rw [bind_ok _ _ s s1 helm hp]
    simp only [bootstrap_report, hp]
    rcases hc : cluster_create_block env config s1 with ⟨s2, r2⟩
    cases r2 with
    | error e =>
      rw [bind_error _ _ s1 s2 e hc]
      simp only [prodSteps, runSteps, if_true, hc]
    | ok u =>
      rw [bind_ok _ _ s1 s2 u hc]
      cases helm with
      | false =>
        have hsteps : runSteps (prodSteps env config false) s1 =
            ((runSteps (basicStepsList env) s2).1,
             ("cluster-create", Outcome.succeeded) ::
               (runSteps (basicStepsList env) s2).2.1,
             (runSteps (basicStepsList env) s2).2.2) := by
          simp only [prodSteps, Bool.false_eq_true, if_false, runSteps, if_true, hc]
        rw [hsteps]
        have hbr : (if (false = false) then branch_basic env config
            else branch_full env config) = branch_basic env config := by simp
        rw [hbr, branch_basic_eq]
        rcases hr : runSteps (basicStepsList env) s2 with ⟨s3, res, e?⟩
        cases e? with
        | none =>
          dsimp only
          rcases hpost : bootstrap_postamble config false s3 with ⟨s4, r4⟩
          cases r4 <;> rfl
        | some e => rfl
      | true =>
        have hsteps : runSteps (prodSteps env config true) s1 =
            ((runSteps (fullStepsList env config) s2).1,
             ("cluster-create", Outcome.succeeded) ::
               (runSteps (fullStepsList env config) s2).2.1,
             (runSteps (fullStepsList env config) s2).2.2) := by
          simp only [prodSteps, if_true, runSteps, hc]
        rw [hsteps]
        have hbr : (if (true = false) then branch_basic env config
            else branch_full env config) = branch_full env config := by simp
        rw [hbr, branch_full_eq]
        rcases hr : runSteps (fullStepsList env config) s2 with ⟨s3, res, e?⟩
        cases e? with
        | none =>
          dsimp only
          rcases hpost : bootstrap_postamble config true s3 with ⟨s4, r4⟩
          cases r4 <;> rfl
        | some e => rfl

/-- When the sequencer finishes a list without error, every recorded
outcome is terminal-successful: succeeded or skipped (never failed). -/
theorem runSteps_ok_outcomes :
    ∀ (steps : List (String × Bool × M Unit)) (s s1 : RunState)
      (res : List (String × Outcome)),
      runSteps steps s = (s1, res, none) →
      ∀ p ∈ res, p.2 = Outcome.succeeded ∨ p.2 = Outcome.skipped := by
  intro steps
  induction steps with
  | nil =>
    intro s s1 res h p hp
    injection h with h1 h2
    injection h2 with h3 h4
    subst h3
    exact absurd hp (List.not_mem_nil p)
  | cons q rest ih =>
    obtain ⟨n, enabled, act⟩ := q
    intro s s1 res h p hp
    cases enabled with
    | false =>
      simp only [runSteps, Bool.false_eq_true, if_false] at h
      injection h with h1 h2
      injection h2 with h3 h4
      subst h3
      rcases List.mem_cons.mp hp with hp1 | hp2
      · subst hp1; exact Or.inr rfl
      · have he : runSteps rest s = ((runSteps rest s).1, (runSteps rest s).2.1, none) := by
          rw [← h4]
        exact ih s (runSteps rest s).1 (runSteps rest s).2.1 he p hp2
    | true =>
      rcases ha : act s with ⟨s2, r⟩
      cases r with
      | error e =>
        simp only [runSteps, if_true, ha] at h
        injection h with h1 h2
        injection h2 with h3 h4
        exact Option.noConfusion h4
      | ok a =>
        simp only [runSteps, if_true, ha] at h
        injection h with h1 h2
        injection h2 with h3 h4
        subst h3
        rcases List.mem_cons.mp hp with hp1 | hp2
        · subst hp1; exact Or.inl rfl
        · have he : runSteps rest s2 = ((runSteps rest s2).1, (runSteps rest s2).2.1, none) := by
            rw [← h4]
          exact ih s2 (runSteps rest s2).1 (runSteps rest s2).2.1 he p hp2

/-- pure emits nothing. -/
theorem emitsOnly_pure {α : Type} (P : Event → Prop) (a : α) :
    EmitsOnly P (pure a : M α) := fun _ _ he => Or.inl he

/-- throwM emits nothing. -/
theorem emitsOnly_throwM {α : Type} (P : Event → Prop) (msg : String) :
    EmitsOnly P (throwM msg : M α) := fun _ _ he => Or.inl he

/-- pathExistsM emits nothing. -/
theorem emitsOnly_pathExistsM (P : Event → Prop) (p : String) :
    EmitsOnly P (pathExistsM p) := fun _ _ he => Or.inl he

/-- The frame property composes over bind. -/
theorem emitsOnly_bind {α β : Type} {P : Event → Prop} {x : M α} {f : α → M β}
    (hx : EmitsOnly P x) (hf : ∀ a, EmitsOnly P (f a)) :
    EmitsOnly P (x >>= f) := by
  intro s e he
  rcases hxs : x s with ⟨s1, r⟩
  cases r with
  | error msg =>
    rw [bind_error x f s s1 msg hxs] at he
    exact hx s e (by rw [hxs]; exact he)
  | ok a =>
    rw [bind_ok x f s s1 a hxs] at he
    rcases hf a s1 e he with h1 | h2
    · exact hx s e (by rw [hxs]; exact h1)
    · exact Or.inr h2

/-- emit emits exactly its event. -/
theorem emitsOnly_emit {P : Event → Prop} {ev : Event} (h : P ev) :
    EmitsOnly P (emit ev) := by
  intro s e he
  rw [emit_apply] at he
  rcases List.mem_append.mp he with h1 | h2
  · exact Or.inl h1
  · exact Or.inr (by rw [List.mem_singleton.mp h2]; exact h)

/-- fsWrite emits exactly its write event. -/
theorem emitsOnly_fsWrite {P : Event → Prop} {p : String} (h : P (Event.writeFile p)) :
    EmitsOnly P (fsWrite p) := by
  intro s e he
  rw [fsWrite_apply] at he
  rcases List.mem_append.mp he with h1 | h2
  · exact Or.inl h1
  · exact Or.inr (by rw [List.mem_singleton.mp h2]; exact h)

/-- fsCreateDirAll emits exactly its createDir event. -/
theorem emitsOnly_fsCreateDirAll {P : Event → Prop} {p : String}
    (h : P (Event.createDir p)) : EmitsOnly P (fsCreateDirAll p) := by
  intro s e he
  rw [fsCreateDirAll_apply] at he
  rcases List.mem_append.mp he with h1 | h2
  · exact Or.inl h1
  · exact Or.inr (by rw [List.mem_singleton.mp h2]; exact h)

/-- sleepSecs emits exactly its sleep event. -/
theorem emitsOnly_sleep {P : Event → Prop} {n : Nat} (h : P (Event.sleep n)) :
    EmitsOnly P (sleepSecs n) := emitsOnly_emit h

/-- The frame property distributes over a conditional. -/
theorem emitsOnly_ite {α : Type} {P : Event → Prop} (c : Prop) [Decidable c]
    {x y : M α} (hx : EmitsOnly P x) (hy : EmitsOnly P y) :
    EmitsOnly P (if c then x else y) := by
  by_cases h : c
  · rw [if_pos h]; exact hx
  · rw [if_neg h]; exact hy

/-- run emits its spawn event and possibly a stdout passthrough. -/
theorem emitsOnly_run {P : Event → Prop} (env : Env) (cmd : String)
    (args : List String) (h1 : P (Event.runCmd cmd args))
    (h2 : ∀ o, P (Event.printOut o)) :
    EmitsOnly P (run env cmd args) := by
  intro s e he
  rw [run_apply] at he
  rcases henv : env.exec cmd args with _ | out <;> simp only [henv] at he
  · rcases List.mem_append.mp he with ha | hb
    · exact Or.inl ha
    · exact Or.inr (by rw [List.mem_singleton.mp hb]; exact h1)
  · by_cases hs : out.success = false
    · rw [if_pos hs] at he
      rcases List.mem_append.mp he with ha | hb
      · exact Or.inl ha
      · exact Or.inr (by rw [List.mem_singleton.mp hb]; exact h1)
    · rw [if_neg hs] at he
      by_cases ho : out.stdout = ""
      · rw [if_pos ho] at he
        rcases List.mem_append.mp he with ha | hb
        · exact Or.inl ha
        · exact Or.inr (by rw [List.mem_singleton.mp hb]; exact h1)
      · rw [if_neg ho] at he
        rcases List.mem_append.mp he with hab | hc
        · rcases List.mem_append.mp hab with ha | hb
          · exact Or.inl ha
          · exact Or.inr (by rw [List.mem_singleton.mp hb]; exact h1)
        · exact Or.inr (by rw [List.mem_singleton.mp hc]; exact h2 out.stdout)

/-- run with arguments chosen by a conditional. -/
theorem emitsOnly_run_ite {P : Event → Prop} (env : Env) (cmd : String)
    (c : Prop) [Decidable c] (a1 a2 : List String)
    (h1 : P (Event.runCmd cmd a1)) (h2 : P (Event.runCmd cmd a2))
    (hpo : ∀ o, P (Event.printOut o)) :
    EmitsOnly P (run env cmd (if c then a1 else a2)) := by
  by_cases h : c
  · rw [if_pos h]; exact emitsOnly_run env cmd a1 h1 hpo
  · rw [if_neg h]; exact emitsOnly_run env cmd a2 h2 hpo

/-- apply_manifest emits exactly its manifest event. -/
theorem emitsOnly_apply_manifest {P : Event → Prop} (env : Env) (manifest : String)
    (h : P (Event.applyManifest manifest)) :
    EmitsOnly P (apply_manifest env manifest) := by
  intro s e he
  rw [apply_manifest_apply] at he
  rcases henv : env.applyExec manifest with _ | out <;> simp only [henv] at he
  · rcases List.mem_append.mp he with ha | hb
    · exact Or.inl ha
    · exact Or.inr (by rw [List.mem_singleton.mp hb]; exact h)
  · by_cases hs : out.success = false
    · rw [if_pos hs] at he
      rcases List.mem_append.mp he with ha | hb
      · exact Or.inl ha
      · exact Or.inr (by rw [List.mem_singleton.mp hb]; exact h)
    · rw [if_neg hs] at he
      rcases List.mem_append.mp he with ha | hb
      · exact Or.inl ha
      · exact Or.inr (by rw [List.mem_singleton.mp hb]; exact h)

/-- Weakening of the frame property. -/
theorem emitsOnly_mono {α : Type} {P Q : Event → Prop} {m : M α}
    (h : EmitsOnly P m) (himp : ∀ e, P e → Q e) : EmitsOnly Q m := by
  intro s e he
  rcases h s e he with h1 | h2
  · exact Or.inl h1
  · exact Or.inr (himp e h2)

/-- Frame lemma for create_sample_nginx_chart. -/
theorem emitsOnly_create_sample_nginx_chart {P : Event → Prop}
    (h : ∀ e ∈ sampleChartEvs, P e) :
    EmitsOnly P create_sample_nginx_chart := by
  simp only [create_sample_nginx_chart]
  refine emitsOnly_bind (emitsOnly_fsWrite (h _ (by simp [sampleChartEvs]))) fun _ => ?_
  refine emitsOnly_bind (emitsOnly_fsWrite (h _ (by simp [sampleChartEvs]))) fun _ => ?_
  refine emitsOnly_bind (emitsOnly_fsWrite (h _ (by simp [sampleChartEvs]))) fun _ => ?_
  refine emitsOnly_bind (emitsOnly_fsWrite (h _ (by simp [sampleChartEvs]))) fun _ => ?_
  exact emitsOnly_fsWrite (h _ (by simp [sampleChartEvs]))

/-- Frame lemma for create_default_values_files. -/
theorem emitsOnly_create_default_values_files {P : Event → Prop}
    (h : ∀ e ∈ defaultValuesEvs, P e) :
    EmitsOnly P create_default_values_files := by
  simp only [create_default_values_files]
  refine emitsOnly_bind (emitsOnly_fsWrite (h _ (by simp [defaultValuesEvs]))) fun _ => ?_
  refine emitsOnly_bind (emitsOnly_fsWrite (h _ (by simp [defaultValuesEvs]))) fun _ => ?_
  refine emitsOnly_bind (emitsOnly_fsWrite (h _ (by simp [defaultValuesEvs]))) fun _ => ?_
  refine emitsOnly_bind (emitsOnly_fsWrite (h _ (by simp [defaultValuesEvs]))) fun _ => ?_
  refine emitsOnly_bind (emitsOnly_fsWrite (h _ (by simp [defaultValuesEvs]))) fun _ => ?_
  refine emitsOnly_bind (emitsOnly_fsWrite (h _ (by simp [defaultValuesEvs]))) fun _ => ?_
  refine emitsOnly_bind (emitsOnly_fsWrite (h _ (by simp [defaultValuesEvs]))) fun _ => ?_
  refine emitsOnly_bind (emitsOnly_create_sample_nginx_chart fun e he =>
    h e (by simp only [defaultValuesEvs, List.mem_append]; exact Or.inl (Or.inr he))) fun _ => ?_
  refine emitsOnly_bind (emitsOnly_fsWrite (h _ (by simp [defaultValuesEvs]))) fun _ => ?_
  refine emitsOnly_bind (emitsOnly_fsWrite (h _ (by simp [defaultValuesEvs]))) fun _ => ?_
  refine emitsOnly_bind (emitsOnly_fsWrite (h _ (by simp [defaultValuesEvs]))) fun _ => ?_
  exact emitsOnly_fsWrite (h _ (by simp [defaultValuesEvs]))

/-- Frame lemma for ensure_helm_values_dir. -/
theorem emitsOnly_ensure_helm_values_dir {P : Event → Prop}
    (h : ∀ e ∈ ensureDirEvs, P e) :
    EmitsOnly P ensure_helm_values_dir := by
  simp only [ensure_helm_values_dir]
  refine emitsOnly_bind (emitsOnly_pathExistsM P _) fun b => ?_
  refine emitsOnly_ite _ ?_ (emitsOnly_pure P _)
  refine emitsOnly_bind (emitsOnly_emit (h _ (by simp [ensureDirEvs]))) fun _ => ?_
  refine emitsOnly_bind (emitsOnly_emit (h _ (by simp [ensureDirEvs]))) fun _ => ?_
  refine emitsOnly_bind (emitsOnly_fsCreateDirAll (h _ (by simp [ensureDirEvs]))) fun _ => ?_
  refine emitsOnly_bind (emitsOnly_fsCreateDirAll (h _ (by simp [ensureDirEvs]))) fun _ => ?_
  refine emitsOnly_bind (emitsOnly_fsCreateDirAll (h _ (by simp [ensureDirEvs]))) fun _ => ?_
  refine emitsOnly_bind (emitsOnly_create_default_values_files fun e he =>
    h e (by simp only [ensureDirEvs, List.mem_append]; exact Or.inl (Or.inr he))) fun _ => ?_
  exact emitsOnly_emit (h _ (by simp [ensureDirEvs]))

/-- Frame lemma for create_k3d_config. -/
theorem emitsOnly_create_k3d_config {P : Event → Prop} (config : ProdClusterConfig)
    (h : ∀ e ∈ k3dConfigEvs, P e) :
    EmitsOnly P (create_k3d_config config) := by
  simp only [create_k3d_config]
  refine emitsOnly_bind (emitsOnly_fsWrite (h _ (by simp [k3dConfigEvs]))) fun _ => ?_
  exact emitsOnly_emit (h _ (by simp [k3dConfigEvs]))

/-- Frame lemma for bootstrap_preamble. -/
theorem emitsOnly_bootstrap_preamble {P : Event → Prop} (env : Env)
    (config : ProdClusterConfig) (h : ∀ e ∈ preambleEvs config, P e) :
    EmitsOnly P (bootstrap_preamble env config) := by
  simp only [bootstrap_preamble]
  refine emitsOnly_bind (emitsOnly_emit (h _ (by simp [preambleEvs]))) fun _ => ?_
  refine emitsOnly_bind (emitsOnly_emit (h _ (by simp [preambleEvs]))) fun _ => ?_
  refine emitsOnly_bind (emitsOnly_emit (h _ (by simp [preambleEvs]))) fun _ => ?_
  refine emitsOnly_bind (emitsOnly_emit (h _ (by simp [preambleEvs]))) fun _ => ?_
  refine emitsOnly_bind (emitsOnly_emit (h _ (by simp [preambleEvs]))) fun _ => ?_
  refine emitsOnly_bind (emitsOnly_emit (h _ (by simp [preambleEvs]))) fun _ => ?_
  refine emitsOnly_bind (emitsOnly_emit (h _ (by simp [preambleEvs]))) fun _ => ?_
  refine emitsOnly_bind (emitsOnly_ite _ ?_ (emitsOnly_pure P _)) fun _ => ?_
  · refine emitsOnly_bind (emitsOnly_emit (h _ (by simp [preambleEvs]))) fun _ => ?_
    refine emitsOnly_bind (emitsOnly_emit (h _ (by simp [preambleEvs]))) fun _ => ?_
    exact emitsOnly_emit (h _ (by simp [preambleEvs]))
  refine emitsOnly_bind (emitsOnly_ite _ (emitsOnly_ensure_helm_values_dir fun e he =>
    h e (by simp only [preambleEvs, List.mem_append]; exact Or.inl (Or.inr he)))
    (emitsOnly_pure P _)) fun _ => ?_
  refine emitsOnly_bind (emitsOnly_create_k3d_config config fun e he =>
    h e (by simp only [preambleEvs, List.mem_append]; exact Or.inr he)) fun _ => ?_
  exact emitsOnly_pure P _

/-- Frame lemma for cluster_create_block. -/
theorem emitsOnly_cluster_create_block {P : Event → Prop} (env : Env)
    (config : ProdClusterConfig) (h : ∀ e ∈ clusterCreateEvs config, P e)
    (hpo : ∀ o, P (Event.printOut o)) :
    EmitsOnly P (cluster_create_block env config) := by
  simp only [cluster_create_block]
  refine emitsOnly_bind (emitsOnly_emit (h _ (by simp [clusterCreateEvs]))) fun _ => ?_
  refine emitsOnly_bind (emitsOnly_run env _ _ (h _ (by simp [clusterCreateEvs])) hpo) fun _ => ?_
  refine emitsOnly_bind (emitsOnly_emit (h _ (by simp [clusterCreateEvs]))) fun _ => ?_
  refine emitsOnly_bind (emitsOnly_sleep (h _ (by simp [clusterCreateEvs]))) fun _ => ?_
  exact emitsOnly_run env _ _ (h _ (by simp [clusterCreateEvs])) hpo

/-- Frame lemma for setup_helm_repos. -/
theorem emitsOnly_setup_helm_repos {P : Event → Prop} (env : Env)
    (h : ∀ e ∈ helmReposEvs, P e) (hpo : ∀ o, P (Event.printOut o)) :
    EmitsOnly P (setup_helm_repos env) := by
  simp only [setup_helm_repos]
  refine emitsOnly_bind (emitsOnly_emit (h _ (by simp [helmReposEvs]))) fun _ => ?_
  refine emitsOnly_bind (emitsOnly_run env _ _ (h _ (by simp [helmReposEvs])) hpo) fun _ => ?_
  refine emitsOnly_bind (emitsOnly_run env _ _ (h _ (by simp [helmReposEvs])) hpo) fun _ => ?_
  refine emitsOnly_bind (emitsOnly_run env _ _ (h _ (by simp [helmReposEvs])) hpo) fun _ => ?_
  refine emitsOnly_bind (emitsOnly_run env _ _ (h _ (by simp [helmReposEvs])) hpo) fun _ => ?_
  refine emitsOnly_bind (emitsOnly_run env _ _ (h _ (by simp [helmReposEvs])) hpo) fun _ => ?_
  refine emitsOnly_bind (emitsOnly_run env _ _ (h _ (by simp [helmReposEvs])) hpo) fun _ => ?_
  refine emitsOnly_bind (emitsOnly_run env _ _ (h _ (by simp [helmReposEvs])) hpo) fun _ => ?_
  exact emitsOnly_emit (h _ (by simp [helmReposEvs]))

/-- Frame lemma for install_cert_manager_helm. -/
theorem emitsOnly_install_cert_manager_helm {P : Event → Prop} (env : Env)
    (h : ∀ e ∈ certManagerEvs, P e) (hpo : ∀ o, P (Event.printOut o)) :
    EmitsOnly P (install_cert_manager_helm env) := by
  simp only [install_cert_manager_helm]
  refine emitsOnly_bind (emitsOnly_emit (h _ (by simp [certManagerEvs]))) fun _ => ?_
  refine emitsOnly_bind (emitsOnly_run env _ _ (h _ (by simp [certManagerEvs])) hpo) fun _ => ?_
  refine emitsOnly_bind (emitsOnly_pathExistsM P _) fun b => ?_
  refine emitsOnly_bind (emitsOnly_ite _
    (emitsOnly_emit (h _ (by simp [certManagerEvs]))) (emitsOnly_pure P _)) fun _ => ?_
  refine emitsOnly_bind (emitsOnly_run_ite env _ _ _ _
    (h _ (by simp [certManagerEvs])) (h _ (by simp [certManagerEvs])) hpo) fun _ => ?_
  refine emitsOnly_bind (emitsOnly_sleep (h _ (by simp [certManagerEvs]))) fun _ => ?_
  refine emitsOnly_bind (emitsOnly_run env _ _ (h _ (by simp [certManagerEvs])) hpo) fun _ => ?_
  refine emitsOnly_bind (emitsOnly_pathExistsM P _) fun b2 => ?_
  refine emitsOnly_ite _ ?_ ?_
  · refine emitsOnly_bind (emitsOnly_run env _ _ (h _ (by simp [certManagerEvs])) hpo) fun _ => ?_
    exact emitsOnly_emit (h _ (by simp [certManagerEvs]))
  · refine emitsOnly_bind (emitsOnly_apply_manifest env _ (h _ (by simp [certManagerEvs]))) fun _ => ?_
    exact emitsOnly_emit (h _ (by simp [certManagerEvs]))

/-- Frame lemma for install_ingress_controller_helm. -/
theorem emitsOnly_install_ingress_controller_helm {P : Event → Prop} (env : Env)
    (h : ∀ e ∈ ingressEvs, P e) (hpo : ∀ o, P (Event.printOut o)) :
    EmitsOnly P (install_ingress_controller_helm env) := by
  simp only [install_ingress_controller_helm]
  refine emitsOnly_bind (emitsOnly_emit (h _ (by simp [ingressEvs]))) fun _ => ?_
  refine emitsOnly_bind (emitsOnly_run env _ _ (h _ (by simp [ingressEvs])) hpo) fun _ => ?_
  refine emitsOnly_bind (emitsOnly_pathExistsM P _) fun b => ?_
  refine emitsOnly_bind (emitsOnly_ite _
    (emitsOnly_emit (h _ (by simp [ingressEvs]))) (emitsOnly_pure P _)) fun _ => ?_
  refine emitsOnly_bind (emitsOnly_run_ite env _ _ _ _
    (h _ (by simp [ingressEvs])) (h _ (by simp [ingressEvs])) hpo) fun _ => ?_
  refine emitsOnly_bind (emitsOnly_sleep (h _ (by simp [ingressEvs]))) fun _ => ?_
  refine emitsOnly_bind (emitsOnly_run env _ _ (h _ (by simp [ingressEvs])) hpo) fun _ => ?_
  exact emitsOnly_emit (h _ (by simp [ingressEvs]))

/-- Frame lemma for install_monitoring_stack_helm. -/
theorem emitsOnly_install_monitoring_stack_helm {P : Event → Prop} (env : Env)
    (h : ∀ e ∈ monitoringEvs, P e) (hpo : ∀ o, P (Event.printOut o)) :
    EmitsOnly P (install_monitoring_stack_helm env) := by
  simp only [install_monitoring_stack_helm]
  refine emitsOnly_bind (emitsOnly_emit (h _ (by simp [monitoringEvs]))) fun _ => ?_
  refine emitsOnly_bind (emitsOnly_run env _ _ (h _ (by simp [monitoringEvs])) hpo) fun _ => ?_
  refine emitsOnly_bind (emitsOnly_pathExistsM P _) fun b => ?_
  refine emitsOnly_bind (emitsOnly_ite _
    (emitsOnly_emit (h _ (by simp [monitoringEvs]))) (emitsOnly_pure P _)) fun _ => ?_
  refine emitsOnly_bind (emitsOnly_run_ite env _ _ _ _
    (h _ (by simp [monitoringEvs])) (h _ (by simp [monitoringEvs])) hpo) fun _ => ?_
  refine emitsOnly_bind (emitsOnly_sleep (h _ (by simp [monitoringEvs]))) fun _ => ?_
  exact emitsOnly_emit (h _ (by simp [monitoringEvs]))

/-- Frame lemma for install_logging_stack_helm. -/
theorem emitsOnly_install_logging_stack_helm {P : Event → Prop} (env : Env)
    (h : ∀ e ∈ loggingEvs, P e) (hpo : ∀ o, P (Event.printOut o)) :
    EmitsOnly P (install_logging_stack_helm env) := by
  simp only [install_logging_stack_helm]
  refine emitsOnly_bind (emitsOnly_emit (h _ (by simp [loggingEvs]))) fun _ => ?_
  refine emitsOnly_bind (emitsOnly_run env _ _ (h _ (by simp [loggingEvs])) hpo) fun _ => ?_
  refine emitsOnly_bind (emitsOnly_emit (h _ (by simp [loggingEvs]))) fun _ => ?_
  refine emitsOnly_bind (emitsOnly_pathExistsM P _) fun b1 => ?_
  refine emitsOnly_bind (emitsOnly_run_ite env _ _ _ _
    (h _ (by simp [loggingEvs])) (h _ (by simp [loggingEvs])) hpo) fun _ => ?_
  refine emitsOnly_bind (emitsOnly_sleep (h _ (by simp [loggingEvs]))) fun _ => ?_
  refine emitsOnly_bind (emitsOnly_emit (h _ (by simp [loggingEvs]))) fun _ => ?_
  refine emitsOnly_bind (emitsOnly_pathExistsM P _) fun b2 => ?_
  refine emitsOnly_bind (emitsOnly_run_ite env _ _ _ _
    (h _ (by simp [loggingEvs])) (h _ (by simp [loggingEvs])) hpo) fun _ => ?_
  refine emitsOnly_bind (emitsOnly_emit (h _ (by simp [loggingEvs]))) fun _ => ?_
  refine emitsOnly_bind (emitsOnly_pathExistsM P _) fun b3 => ?_
  refine emitsOnly_bind (emitsOnly_run_ite env _ _ _ _
    (h _ (by simp [loggingEvs])) (h _ (by simp [loggingEvs])) hpo) fun _ => ?_
  exact emitsOnly_emit (h _ (by simp [loggingEvs]))

/-- Frame lemma for install_argocd_helm. -/
theorem emitsOnly_install_argocd_helm {P : Event → Prop} (env : Env)
    (h : ∀ e ∈ argocdEvs, P e) (hpo : ∀ o, P (Event.printOut o)) :
    EmitsOnly P (install_argocd_helm env) := by
  simp only [install_argocd_helm]
  refine emitsOnly_bind (emitsOnly_emit (h _ (by simp [argocdEvs]))) fun _ => ?_
  refine emitsOnly_bind (emitsOnly_run env _ _ (h _ (by simp [argocdEvs])) hpo) fun _ => ?_
  refine emitsOnly_bind (emitsOnly_pathExistsM P _) fun b => ?_
  refine emitsOnly_bind (emitsOnly_ite _
    (emitsOnly_emit (h _ (by simp [argocdEvs]))) (emitsOnly_pure P _)) fun _ => ?_
  refine emitsOnly_bind (emitsOnly_run_ite env _ _ _ _
    (h _ (by simp [argocdEvs])) (h _ (by simp [argocdEvs])) hpo) fun _ => ?_
  refine emitsOnly_bind (emitsOnly_sleep (h _ (by simp [argocdEvs]))) fun _ => ?_
  refine emitsOnly_bind (emitsOnly_run env _ _ (h _ (by simp [argocdEvs])) hpo) fun _ => ?_
  exact emitsOnly_emit (h _ (by simp [argocdEvs]))

/-- Frame lemma for deploy_sample_app_helm. -/
theorem emitsOnly_deploy_sample_app_helm {P : Event → Prop} (env : Env)
    (h : ∀ e ∈ sampleAppEvs, P e) (hpo : ∀ o, P (Event.printOut o)) :
    EmitsOnly P (deploy_sample_app_helm env) := by
  simp only [deploy_sample_app_helm, deploy_basic_nginx]
  refine emitsOnly_bind (emitsOnly_emit (h _ (by simp [sampleAppEvs]))) fun _ => ?_
  refine emitsOnly_bind (emitsOnly_pathExistsM P _) fun b1 => ?_
  refine emitsOnly_bind (emitsOnly_pathExistsM P _) fun b2 => ?_
  refine emitsOnly_ite _ ?_ ?_
  · refine emitsOnly_bind (emitsOnly_run env _ _ (h _ (by simp [sampleAppEvs])) hpo) fun _ => ?_
    refine emitsOnly_bind (emitsOnly_sleep (h _ (by simp [sampleAppEvs]))) fun _ => ?_
    exact emitsOnly_emit (h _ (by simp [sampleAppEvs]))
  · refine emitsOnly_bind (emitsOnly_emit (h _ (by simp [sampleAppEvs]))) fun _ => ?_
    refine emitsOnly_bind (emitsOnly_apply_manifest env _ (h _ (by simp [sampleAppEvs]))) fun _ => ?_
    refine emitsOnly_bind (emitsOnly_sleep (h _ (by simp [sampleAppEvs]))) fun _ => ?_
    exact emitsOnly_emit (h _ (by simp [sampleAppEvs]))

/-- Frame lemma for setup_namespaces. -/
theorem emitsOnly_setup_namespaces {P : Event → Prop} (env : Env)
    (h : ∀ e ∈ namespacesEvs, P e) (hpo : ∀ o, P (Event.printOut o)) :
    EmitsOnly P (setup_namespaces env) := by
  simp only [setup_namespaces]
  refine emitsOnly_bind (emitsOnly_emit (h _ (by simp [namespacesEvs]))) fun _ => ?_
  refine emitsOnly_bind (emitsOnly_pathExistsM P _) fun b => ?_
  refine emitsOnly_ite _ ?_ ?_
  · refine emitsOnly_bind (emitsOnly_run env _ _ (h _ (by simp [namespacesEvs])) hpo) fun _ => ?_
    exact emitsOnly_emit (h _ (by simp [namespacesEvs]))
  · refine emitsOnly_bind (emitsOnly_apply_manifest env _ (h _ (by simp [namespacesEvs]))) fun _ => ?_
    exact emitsOnly_emit (h _ (by simp [namespacesEvs]))

/-- Frame lemma for setup_network_policies. -/
theorem emitsOnly_setup_network_policies {P : Event → Prop} (env : Env)
    (h : ∀ e ∈ networkPoliciesEvs, P e) (hpo : ∀ o, P (Event.printOut o)) :
    EmitsOnly P (setup_network_policies env) := by
  simp only [setup_network_policies]
  refine emitsOnly_bind (emitsOnly_emit (h _ (by simp [networkPoliciesEvs]))) fun _ => ?_
  refine emitsOnly_bind (emitsOnly_pathExistsM P _) fun b => ?_
  refine emitsOnly_ite _ ?_ ?_
  · refine emitsOnly_bind (emitsOnly_run env _ _ (h _ (by simp [networkPoliciesEvs])) hpo) fun _ => ?_
    exact emitsOnly_emit (h _ (by simp [networkPoliciesEvs]))
  · refine emitsOnly_bind (emitsOnly_apply_manifest env _ (h _ (by simp [networkPoliciesEvs]))) fun _ => ?_
    exact emitsOnly_emit (h _ (by simp [networkPoliciesEvs]))

/-- Frame lemma for setup_resource_quotas. -/
theorem emitsOnly_setup_resource_quotas {P : Event → Prop} (env : Env)
    (h : ∀ e ∈ resourceQuotasEvs, P e) (hpo : ∀ o, P (Event.printOut o)) :
    EmitsOnly P (setup_resource_quotas env) := by
  simp only [setup_resource_quotas]
  refine emitsOnly_bind (emitsOnly_emit (h _ (by simp [resourceQuotasEvs]))) fun _ => ?_
  refine emitsOnly_bind (emitsOnly_pathExistsM P _) fun b => ?_
  refine emitsOnly_ite _ ?_ ?_
  · refine emitsOnly_bind (emitsOnly_run env _ _ (h _ (by simp [resourceQuotasEvs])) hpo) fun _ => ?_
    exact emitsOnly_emit (h _ (by simp [resourceQuotasEvs]))
  · refine emitsOnly_bind (emitsOnly_apply_manifest env _ (h _ (by simp [resourceQuotasEvs]))) fun _ => ?_
    exact emitsOnly_emit (h _ (by simp [resourceQuotasEvs]))

/-- Frame lemma for print_basic_access_info. -/
theorem emitsOnly_print_basic_access_info {P : Event → Prop} (cluster_name : String)
    (h : ∀ e ∈ basicInfoEvs cluster_name, P e) :
    EmitsOnly P (print_basic_access_info cluster_name) := by
  simp only [print_basic_access_info]
  refine emitsOnly_bind (emitsOnly_emit (h _ (by simp [basicInfoEvs]))) fun _ => ?_
  refine emitsOnly_bind (emitsOnly_emit (h _ (by simp [basicInfoEvs]))) fun _ => ?_
  refine emitsOnly_bind (emitsOnly_emit (h _ (by simp [basicInfoEvs]))) fun _ => ?_
  refine emitsOnly_bind (emitsOnly_emit (h _ (by simp [basicInfoEvs]))) fun _ => ?_
  refine emitsOnly_bind (emitsOnly_emit (h _ (by simp [basicInfoEvs]))) fun _ => ?_
  refine emitsOnly_bind (emitsOnly_emit (h _ (by simp [basicInfoEvs]))) fun _ => ?_
  refine emitsOnly_bind (emitsOnly_emit (h _ (by simp [basicInfoEvs]))) fun _ => ?_
  refine emitsOnly_bind (emitsOnly_emit (h _ (by simp [basicInfoEvs]))) fun _ => ?_
  refine emitsOnly_bind (emitsOnly_emit (h _ (by simp [basicInfoEvs]))) fun _ => ?_
  refine emitsOnly_bind (emitsOnly_emit (h _ (by simp [basicInfoEvs]))) fun _ => ?_
  refine emitsOnly_bind (emitsOnly_emit (h _ (by simp [basicInfoEvs]))) fun _ => ?_
  refine emitsOnly_bind (emitsOnly_emit (h _ (by simp [basicInfoEvs]))) fun _ => ?_
  exact emitsOnly_emit (h _ (by simp [basicInfoEvs]))

/-- Frame lemma for print_access_info. -/
theorem emitsOnly_print_access_info {P : Event → Prop} (cluster_name : String)
    (h : ∀ e ∈ accessInfoEvs cluster_name, P e) :
    EmitsOnly P (print_access_info cluster_name) := by
  simp only [print_access_info]
  refine emitsOnly_bind (emitsOnly_emit (h _ (by simp [accessInfoEvs]))) fun _ => ?_
  refine emitsOnly_bind (emitsOnly_emit (h _ (by simp [accessInfoEvs]))) fun _ => ?_
  refine emitsOnly_bind (emitsOnly_emit (h _ (by simp [accessInfoEvs]))) fun _ => ?_
  refine emitsOnly_bind (emitsOnly_emit (h _ (by simp [accessInfoEvs]))) fun _ => ?_
  refine emitsOnly_bind (emitsOnly_emit (h _ (by simp [accessInfoEvs]))) fun _ => ?_
  refine emitsOnly_bind (emitsOnly_emit (h _ (by simp [accessInfoEvs]))) fun _ => ?_
  refine emitsOnly_bind (emitsOnly_emit (h _ (by simp [accessInfoEvs]))) fun _ => ?_
  refine emitsOnly_bind (emitsOnly_emit (h _ (by simp [accessInfoEvs]))) fun _ => ?_
  refine emitsOnly_bind (emitsOnly_emit (h _ (by simp [accessInfoEvs]))) fun _ => ?_
  refine emitsOnly_bind (emitsOnly_emit (h _ (by simp [accessInfoEvs]))) fun _ => ?_
  refine emitsOnly_bind (emitsOnly_emit (h _ (by simp [accessInfoEvs]))) fun _ => ?_
  refine emitsOnly_bind (emitsOnly_emit (h _ (by simp [accessInfoEvs]))) fun _ => ?_
  refine emitsOnly_bind (emitsOnly_emit (h _ (by simp [accessInfoEvs]))) fun _ => ?_
  refine emitsOnly_bind (emitsOnly_emit (h _ (by simp [accessInfoEvs]))) fun _ => ?_
  refine emitsOnly_bind (emitsOnly_emit (h _ (by simp [accessInfoEvs]))) fun _ => ?_
  refine emitsOnly_bind (emitsOnly_emit (h _ (by simp [accessInfoEvs]))) fun _ => ?_
  refine emitsOnly_bind (emitsOnly_emit (h _ (by simp [accessInfoEvs]))) fun _ => ?_
  refine emitsOnly_bind (emitsOnly_emit (h _ (by simp [accessInfoEvs]))) fun _ => ?_
  refine emitsOnly_bind (emitsOnly_emit (h _ (by simp [accessInfoEvs]))) fun _ => ?_
  refine emitsOnly_bind (emitsOnly_emit (h _ (by simp [accessInfoEvs]))) fun _ => ?_
  refine emitsOnly_bind (emitsOnly_emit (h _ (by simp [accessInfoEvs]))) fun _ => ?_
  refine emitsOnly_bind (emitsOnly_emit (h _ (by simp [accessInfoEvs]))) fun _ => ?_
  refine emitsOnly_bind (emitsOnly_emit (h _ (by simp [accessInfoEvs]))) fun _ => ?_
  refine emitsOnly_bind (emitsOnly_emit (h _ (by simp [accessInfoEvs]))) fun _ => ?_
  exact emitsOnly_emit (h _ (by simp [accessInfoEvs]))

/-- Frame lemma for bootstrap_postamble (either variant). -/
theorem emitsOnly_bootstrap_postamble {P : Event → Prop} (config : ProdClusterConfig)
    (b : Bool) (h : ∀ e ∈ postambleEvs config, P e) :
    EmitsOnly P (bootstrap_postamble config b) := by
  simp only [bootstrap_postamble]
  refine emitsOnly_ite _ ?_ ?_
  · refine emitsOnly_bind (emitsOnly_emit (h _ (by simp [postambleEvs]))) fun _ => ?_
    exact emitsOnly_print_access_info config.name fun e he =>
      h e (by simp only [postambleEvs, List.mem_append]; exact Or.inl (Or.inr he))
  · refine emitsOnly_bind (emitsOnly_emit (h _ (by simp [postambleEvs]))) fun _ => ?_
    exact emitsOnly_print_basic_access_info config.name fun e he =>
      h e (by simp only [postambleEvs, List.mem_append]; exact Or.inr he)

/-- Frame lemma for branch_basic: the reduced path emits only its own
console lines, the namespaces step and the basic summary. -/
theorem emitsOnly_branch_basic {P : Event → Prop} (env : Env)
    (config : ProdClusterConfig) (h : ∀ e ∈ branchBasicEvs config, P e)
    (hpo : ∀ o, P (Event.printOut o)) :
    EmitsOnly P (branch_basic env config) := by
  simp only [branch_basic]
  refine emitsOnly_bind (emitsOnly_emit (h _ (by simp [branchBasicEvs]))) fun _ => ?_
  refine emitsOnly_bind (emitsOnly_setup_namespaces env (fun e he =>
    h e (by simp only [branchBasicEvs, List.mem_append]
            exact Or.inl (Or.inl (Or.inr he)))) hpo) fun _ => ?_
  have hpost : bootstrap_postamble config false = (do
      emit (Event.print ("\n✅ Basic cluster \x27" ++ config.name ++ "\x27 is ready!"))
      print_basic_access_info config.name) := by
    simp [bootstrap_postamble]
  rw [hpost]
  refine emitsOnly_bind (emitsOnly_emit (h _ (by simp [branchBasicEvs]))) fun _ => ?_
  exact emitsOnly_print_basic_access_info config.name fun e he =>
    h e (by simp only [branchBasicEvs, List.mem_append]; exact Or.inr he)

/-- Frame lemma for branch_full, from frame facts for each of its
components (the flag-gated components appear under their gates, so a
disabled component needs no fact at all). -/
theorem emitsOnly_branch_full {P : Event → Prop} (env : Env)
    (config : ProdClusterConfig)
    (h1 : P (Event.print ("\n📦 Installing core components via Helm...")))
    (hrepos : EmitsOnly P (setup_helm_repos env))
    (hcert : EmitsOnly P (install_cert_manager_helm env))
    (hing : EmitsOnly P (install_ingress_controller_helm env))
    (hmon : EmitsOnly P (if config.install_monitoring then
      install_monitoring_stack_helm env else pure ()))
    (hlog : EmitsOnly P (if config.install_logging then
      install_logging_stack_helm env else pure ()))
    (harg : EmitsOnly P (if config.install_argocd then
      install_argocd_helm env else pure ()))
    (hns : EmitsOnly P (setup_namespaces env))
    (hnp : EmitsOnly P (setup_network_policies env))
    (hq : EmitsOnly P (setup_resource_quotas env))
    (hsa : EmitsOnly P (deploy_sample_app_helm env))
    (hpost : EmitsOnly P (bootstrap_postamble config true)) :
    EmitsOnly P (branch_full env config) := by
  simp only [branch_full]
  refine emitsOnly_bind (emitsOnly_emit h1) fun _ => ?_
  refine emitsOnly_bind hrepos fun _ => ?_
  refine emitsOnly_bind hcert fun _ => ?_
  refine emitsOnly_bind hing fun _ => ?_
  refine emitsOnly_bind hmon fun _ => ?_
  refine emitsOnly_bind hlog fun _ => ?_
  refine emitsOnly_bind harg fun _ => ?_
  refine emitsOnly_bind hns fun _ => ?_
  refine emitsOnly_bind hnp fun _ => ?_
  refine emitsOnly_bind hq fun _ => ?_
  refine emitsOnly_bind hsa fun _ => ?_
  exact hpost

/-- Frame lemma for the whole bootstrap, from frame facts for its four
phases. -/
theorem emitsOnly_create_prod_cluster {P : Event → Prop} (env : Env)
    (config : ProdClusterConfig)
    (hpre : EmitsOnly P (bootstrap_preamble env config))
    (hcc : EmitsOnly P (cluster_create_block env config))
    (hbasic : EmitsOnly P (branch_basic env config))
    (hfull : EmitsOnly P (branch_full env config)) :
    EmitsOnly P (create_prod_cluster env config) := by
  simp only [create_prod_cluster]
  refine emitsOnly_bind hpre fun b => ?_
  refine emitsOnly_bind hcc fun _ => ?_
  exact emitsOnly_ite _ hbasic hfull

/-- strStarts accepts every list against itself extended. -/
theorem strStarts_append (xs ys : List Char) : strStarts xs (xs ++ ys) = true := by
  induction xs with
  | nil => rfl
  | cons c rest ih => simp [strStarts, ih]

/-- A string starting with a given literal cannot equal a string that
the literal does not start. -/
theorem append_ne_of_not_starts (a n b : String)
    (h : strStarts a.data b.data = false) : a ++ n ≠ b := by
  intro hc
  have hd : a.data ++ n.data = b.data := by
    have h2 := congrArg String.data hc
    simpa using h2
  rw [← hd, strStarts_append] at h
  exact Bool.noConfusion h

/-- Variant of append_ne_of_not_starts for a two-step append. -/
theorem append2_ne_of_not_starts (a n m b : String)
    (h : strStarts a.data b.data = false) : (a ++ n) ++ m ≠ b := by
  intro hc
  have hd : (a.data ++ n.data) ++ m.data = b.data := by
    have h2 := congrArg String.data hc
    simpa using h2
  rw [List.append_assoc] at hd
  rw [← hd, strStarts_append] at h
  exact Bool.noConfusion h

set_option maxHeartbeats 2000000 in
/-- No event outside the monitoring step is a monitoring collaborator
call. -/
theorem nonMonitoring_no_call (config : ProdClusterConfig) :
    (nonMonitoringEvs config).all (fun e => !monitoringCall e) = true := by
  simp [nonMonitoringEvs, preambleEvs, clusterCreateEvs, branchBasicEvs, helmReposEvs,
    certManagerEvs, ingressEvs, monitoringEvs, loggingEvs, argocdEvs, namespacesEvs,
    networkPoliciesEvs, resourceQuotasEvs, sampleAppEvs, postambleEvs, basicInfoEvs,
    accessInfoEvs, ensureDirEvs, defaultValuesEvs, sampleChartEvs, k3dConfigEvs,
    monitoringCall, loggingCall, argocdCall, helmBackedStepCall, helmInvocation,
    nsCreateCall, networkPoliciesCall, resourceQuotasCall, sampleAppCall,
    certIssuerInline, basicNginxInline, namespacesInline, networkPoliciesInline,
    resourceQuotasInline, certManagerBaseArgs, ingressBaseArgs, ingressDefaultArgs,
    monitoringBaseArgs, esBaseArgs, fluentdBaseArgs, kibanaBaseArgs, argocdBaseArgs,
    get_values_file, get_manifest_file, HELM_VALUES_DIR]

set_option maxHeartbeats 2000000 in
/-- No event outside the logging step is a logging collaborator call.
-/
theorem nonLogging_no_call (config : ProdClusterConfig) :
    (nonLoggingEvs config).all (fun e => !loggingCall e) = true := by
  simp [nonLoggingEvs, preambleEvs, clusterCreateEvs, branchBasicEvs, helmReposEvs,
    certManagerEvs, ingressEvs, monitoringEvs, loggingEvs, argocdEvs, namespacesEvs,
    networkPoliciesEvs, resourceQuotasEvs, sampleAppEvs, postambleEvs, basicInfoEvs,
    accessInfoEvs, ensureDirEvs, defaultValuesEvs, sampleChartEvs, k3dConfigEvs,
    monitoringCall, loggingCall, argocdCall, helmBackedStepCall, helmInvocation,
    nsCreateCall, networkPoliciesCall, resourceQuotasCall, sampleAppCall,
    certIssuerInline, basicNginxInline, namespacesInline, networkPoliciesInline,
    resourceQuotasInline, certManagerBaseArgs, ingressBaseArgs, ingressDefaultArgs,
    monitoringBaseArgs, esBaseArgs, fluentdBaseArgs, kibanaBaseArgs, argocdBaseArgs,
    get_values_file, get_manifest_file, HELM_VALUES_DIR]

set_option maxHeartbeats 2000000 in
/-- No event outside the ArgoCD step is an ArgoCD collaborator call. -/
theorem nonArgocd_no_call (config : ProdClusterConfig) :
    (nonArgocdEvs config).all (fun e => !argocdCall e) = true := by
  simp [nonArgocdEvs, preambleEvs, clusterCreateEvs, branchBasicEvs, helmReposEvs,
    certManagerEvs, ingressEvs, monitoringEvs, loggingEvs, argocdEvs, namespacesEvs,
    networkPoliciesEvs, resourceQuotasEvs, sampleAppEvs, postambleEvs, basicInfoEvs,
    accessInfoEvs, ensureDirEvs, defaultValuesEvs, sampleChartEvs, k3dConfigEvs,
    monitoringCall, loggingCall, argocdCall, helmBackedStepCall, helmInvocation,
    nsCreateCall, networkPoliciesCall, resourceQuotasCall, sampleAppCall,
    certIssuerInline, basicNginxInline, namespacesInline, networkPoliciesInline,
    resourceQuotasInline, certManagerBaseArgs, ingressBaseArgs, ingressDefaultArgs,
    monitoringBaseArgs, esBaseArgs, fluentdBaseArgs, kibanaBaseArgs, argocdBaseArgs,
    get_values_file, get_manifest_file, HELM_VALUES_DIR]

set_option maxHeartbeats 2000000 in
/-- No event of the reduced path is a package-manager-backed step call,
a network-policies call, a resource-quotas call, or a sample-app call.
-/
theorem basicAll_no_helm_call (config : ProdClusterConfig) :
    (basicAllEvs config).all (fun e => !helmBackedStepCall e
      && !networkPoliciesCall e && !resourceQuotasCall e && !sampleAppCall e) = true := by
  simp [basicAllEvs, preambleEvs, clusterCreateEvs, branchBasicEvs, helmReposEvs,
    certManagerEvs, ingressEvs, monitoringEvs, loggingEvs, argocdEvs, namespacesEvs,
    networkPoliciesEvs, resourceQuotasEvs, sampleAppEvs, postambleEvs, basicInfoEvs,
    accessInfoEvs, ensureDirEvs, defaultValuesEvs, sampleChartEvs, k3dConfigEvs,
    monitoringCall, loggingCall, argocdCall, helmBackedStepCall, helmInvocation,
    nsCreateCall, networkPoliciesCall, resourceQuotasCall, sampleAppCall,
    certIssuerInline, basicNginxInline, namespacesInline, networkPoliciesInline,
    resourceQuotasInline, certManagerBaseArgs, ingressBaseArgs, ingressDefaultArgs,
    monitoringBaseArgs, esBaseArgs, fluentdBaseArgs, kibanaBaseArgs, argocdBaseArgs,
    get_values_file, get_manifest_file, HELM_VALUES_DIR]

/-- pure cannot fail. -/
theorem alwaysOk_pure {α : Type} (a : α) : AlwaysOk (pure a : M α) :=
  fun _ => ⟨a, rfl⟩

/-- emit cannot fail. -/
theorem alwaysOk_emit (ev : Event) : AlwaysOk (emit ev) := fun _ => ⟨(), rfl⟩

/-- pathExistsM cannot fail. -/
theorem alwaysOk_pathExistsM (p : String) : AlwaysOk (pathExistsM p) :=
  fun s => ⟨pathExists s.fs p, rfl⟩

/-- fsWrite cannot fail. -/
theorem alwaysOk_fsWrite (p : String) : AlwaysOk (fsWrite p) := fun _ => ⟨(), rfl⟩

/-- fsCreateDirAll cannot fail. -/
theorem alwaysOk_fsCreateDirAll (p : String) : AlwaysOk (fsCreateDirAll p) :=
  fun _ => ⟨(), rfl⟩

/-- sleepSecs cannot fail. -/
theorem alwaysOk_sleep (n : Nat) : AlwaysOk (sleepSecs n) := fun _ => ⟨(), rfl⟩

/-- Failure-freedom composes over bind. -/
theorem alwaysOk_bind {α β : Type} {x : M α} {f : α → M β}
    (hx : AlwaysOk x) (hf : ∀ a, AlwaysOk (f a)) : AlwaysOk (x >>= f) := by
  intro s
  rcases hx s with ⟨a, ha⟩
  have hxs : x s = ((x s).1, Except.ok a) := by rw [← ha]
  rcases hf a ((x s).1) with ⟨b, hb⟩
  exact ⟨b, by rw [bind_ok x f s _ a hxs]; exact hb⟩

/-- Failure-freedom distributes over conditionals. -/
theorem alwaysOk_ite {α : Type} (c : Prop) [Decidable c] {x y : M α}
    (hx : AlwaysOk x) (hy : AlwaysOk y) : AlwaysOk (if c then x else y) := by
  by_cases h : c
  · rw [if_pos h]; exact hx
  · rw [if_neg h]; exact hy

/-- pure returns exactly its value. -/
theorem endsOk_pure {α : Type} (v : α) : EndsOk (pure v : M α) v := fun _ => rfl

/-- Value-tracking composes over bind when the head cannot fail. -/
theorem endsOk_bind {α β : Type} {x : M α} {f : α → M β} {v : β}
    (hx : AlwaysOk x) (hf : ∀ a, EndsOk (f a) v) : EndsOk (x >>= f) v := by
  intro s
  rcases hx s with ⟨a, ha⟩
  have hxs : x s = ((x s).1, Except.ok a) := by rw [← ha]
  rw [bind_ok x f s _ a hxs]
  exact hf a _

/-- create_sample_nginx_chart cannot fail. -/
theorem alwaysOk_create_sample_nginx_chart : AlwaysOk create_sample_nginx_chart := by
  simp only [create_sample_nginx_chart]
  refine alwaysOk_bind (alwaysOk_fsWrite _) fun _ => ?_
  refine alwaysOk_bind (alwaysOk_fsWrite _) fun _ => ?_
  refine alwaysOk_bind (alwaysOk_fsWrite _) fun _ => ?_
  refine alwaysOk_bind (alwaysOk_fsWrite _) fun _ => ?_
  exact alwaysOk_fsWrite _

/-- create_default_values_files cannot fail. -/
theorem alwaysOk_create_default_values_files : AlwaysOk create_default_values_files := by
  simp only [create_default_values_files]
  refine alwaysOk_bind (alwaysOk_fsWrite _) fun _ => ?_
  refine alwaysOk_bind (alwaysOk_fsWrite _) fun _ => ?_
  refine alwaysOk_bind (alwaysOk_fsWrite _) fun _ => ?_
  refine alwaysOk_bind (alwaysOk_fsWrite _) fun _ => ?_
  refine alwaysOk_bind (alwaysOk_fsWrite _) fun _ => ?_
  refine alwaysOk_bind (alwaysOk_fsWrite _) fun _ => ?_
  refine alwaysOk_bind (alwaysOk_fsWrite _) fun _ => ?_
  refine alwaysOk_bind alwaysOk_create_sample_nginx_chart fun _ => ?_
  refine alwaysOk_bind (alwaysOk_fsWrite _) fun _ => ?_
  refine alwaysOk_bind (alwaysOk_fsWrite _) fun _ => ?_
  refine alwaysOk_bind (alwaysOk_fsWrite _) fun _ => ?_
  exact alwaysOk_fsWrite _

/-- ensure_helm_values_dir cannot fail. -/
theorem alwaysOk_ensure_helm_values_dir : AlwaysOk ensure_helm_values_dir := by
  simp only [ensure_helm_values_dir]
  refine alwaysOk_bind (alwaysOk_pathExistsM _) fun b => ?_
  refine alwaysOk_ite _ ?_ (alwaysOk_pure _)
  refine alwaysOk_bind (alwaysOk_emit _) fun _ => ?_
  refine alwaysOk_bind (alwaysOk_emit _) fun _ => ?_
  refine alwaysOk_bind (alwaysOk_fsCreateDirAll _) fun _ => ?_
  refine alwaysOk_bind (alwaysOk_fsCreateDirAll _) fun _ => ?_
  refine alwaysOk_bind (alwaysOk_fsCreateDirAll _) fun _ => ?_
  refine alwaysOk_bind alwaysOk_create_default_values_files fun _ => ?_
  exact alwaysOk_emit _

/-- create_k3d_config cannot fail. -/
theorem alwaysOk_create_k3d_config (config : ProdClusterConfig) :
    AlwaysOk (create_k3d_config config) := by
  simp only [create_k3d_config]
  exact alwaysOk_bind (alwaysOk_fsWrite _) fun _ => alwaysOk_emit _

/-- The preamble never fails and always returns the probed helm
availability: probing never aborts the run. -/
theorem bootstrap_preamble_result (env : Env) (config : ProdClusterConfig) :
    EndsOk (bootstrap_preamble env config) (check_helm_installed env) := by
  simp only [bootstrap_preamble]
  refine endsOk_bind (alwaysOk_emit _) fun _ => ?_
  refine endsOk_bind (alwaysOk_emit _) fun _ => ?_
  refine endsOk_bind (alwaysOk_emit _) fun _ => ?_
  refine endsOk_bind (alwaysOk_emit _) fun _ => ?_
  refine endsOk_bind (alwaysOk_emit _) fun _ => ?_
  refine endsOk_bind (alwaysOk_emit _) fun _ => ?_
  refine endsOk_bind (alwaysOk_emit _) fun _ => ?_
  refine endsOk_bind (alwaysOk_ite _ ?_ (alwaysOk_pure _)) fun _ => ?_
  · refine alwaysOk_bind (alwaysOk_emit _) fun _ => ?_
    refine alwaysOk_bind (alwaysOk_emit _) fun _ => ?_
    exact alwaysOk_emit _
  refine endsOk_bind (alwaysOk_ite _ alwaysOk_ensure_helm_values_dir (alwaysOk_pure _)) fun _ => ?_
  refine endsOk_bind (alwaysOk_create_k3d_config config) fun _ => ?_
  exact endsOk_pure _

/-- Frame lemma for the whole bootstrap when the probe reports helm
unavailable: only the preamble, the cluster-creation step and the
reduced branch can contribute events. -/
theorem emitsOnly_create_prod_cluster_basic {P : Event → Prop} (env : Env)
    (config : ProdClusterConfig) (hh : check_helm_installed env = false)
    (hpre : EmitsOnly P (bootstrap_preamble env config))
    (hcc : EmitsOnly P (cluster_create_block env config))
    (hbasic : EmitsOnly P (branch_basic env config)) :
    EmitsOnly P (create_prod_cluster env config) := by
  intro s e he
  have hres := bootstrap_preamble_result env config s
  rw [hh] at hres
  have hxs : bootstrap_preamble env config s =
      ((bootstrap_preamble env config s).1, Except.ok false) := by
    rw [← hres]
  have hdef : create_prod_cluster env config =
      (bootstrap_preamble env config >>= fun helm_available =>
        cluster_create_block env config >>= fun _ =>
        if helm_available = false then branch_basic env config
        else branch_full env config) := rfl
  rw [hdef] at he
  rw [bind_ok _ _ s _ false hxs] at he
  have hred : (if (false = false) then branch_basic env config
      else branch_full env config) = branch_basic env config := if_pos rfl
  rw [hred] at he
  rcases emitsOnly_bind hcc (fun _ => hbasic) _ e he with h1 | h2
  · exact hpre s e h1
  · exact Or.inr h2

/-- None of the first banner lines of the preamble is the full-summary
header. -/
theorem preamble_no_full_marker (config : ProdClusterConfig) :
    ∀ e ∈ preambleEvs config, e ≠ fullSummaryMarker := by
  intro e he
  simp only [preambleEvs, List.mem_append] at he
  rcases he with (h | h) | h
  · fin_cases h <;>
      first
        | decide
        | (simp only [ne_eq, fullSummaryMarker, Event.print.injEq]
           first
             | exact append_ne_of_not_starts _ _ _ (by decide)
             | exact append2_ne_of_not_starts _ _ _ _ (by decide))
        | simp [fullSummaryMarker]
  · exact (by decide : ∀ x ∈ ensureDirEvs, x ≠ fullSummaryMarker) e h
  · exact (by decide : ∀ x ∈ k3dConfigEvs, x ≠ fullSummaryMarker) e h

/-- No event of the cluster-creation step is the full-summary header.
-/
theorem clusterCreate_no_full_marker (config : ProdClusterConfig) :
    ∀ e ∈ clusterCreateEvs config, e ≠ fullSummaryMarker := by
  intro e he
  fin_cases he <;> first | decide | simp [fullSummaryMarker]

/-- No line of the basic summary is the full-summary header. -/
theorem basicInfo_no_full_marker (name : String) :
    ∀ e ∈ basicInfoEvs name, e ≠ fullSummaryMarker := by
  intro e he
  fin_cases he <;>
    first
      | decide
      | (simp only [ne_eq, fullSummaryMarker, Event.print.injEq]
         first
           | exact append_ne_of_not_starts _ _ _ (by decide)
           | exact append2_ne_of_not_starts _ _ _ _ (by decide))
      | simp [fullSummaryMarker]

/-- No event of the reduced branch is the full-summary header. -/
theorem branchBasic_no_full_marker (config : ProdClusterConfig) :
    ∀ e ∈ branchBasicEvs config, e ≠ fullSummaryMarker := by
  intro e he
  simp only [branchBasicEvs, List.mem_append, List.mem_singleton] at he
  rcases he with ((h | h) | h) | h
  · subst h; decide
  · exact (by decide : ∀ x ∈ namespacesEvs, x ≠ fullSummaryMarker) e h
  · subst h
    simp only [ne_eq, fullSummaryMarker, Event.print.injEq]
    exact append2_ne_of_not_starts _ _ _ _ (by decide)
  · exact basicInfo_no_full_marker config.name e h

/-- The full post-provision summary is never printed on the reduced
path: no event of the reduced path equals its distinctive header. -/
theorem basicAll_no_full_marker (config : ProdClusterConfig) :
    ∀ e ∈ basicAllEvs config, e ≠ fullSummaryMarker := by
  intro e he
  simp only [basicAllEvs, List.mem_append] at he
  rcases he with (h | h) | h
  · exact preamble_no_full_marker config e h
  · exact clusterCreate_no_full_marker config e h
  · exact branchBasic_no_full_marker config e h

/-- The full post-provision summary always prints its distinctive
header. -/
theorem access_info_has_marker (name : String) (s : RunState) :
    fullSummaryMarker ∈ ((print_access_info name s).1).events := by
  simp [print_access_info, bind_apply, emit_apply, fullSummaryMarker]

/-- Adding a path that is neither the probed path nor a descendant of
it does not change the existence verdict. -/
theorem pathExists_append (fs : FS) (q0 p : String)
    (h1 : ((q0 = p : Bool) || strStarts (p.data ++ [('/')]) q0.data) = false) :
    pathExists ⟨fs.paths ++ [q0]⟩ p = pathExists fs p := by
  simp only [pathExists, List.any_append, List.any_cons, List.any_nil, h1, Bool.or_false]

/-- Exact behaviour of the reduced run: when the probe reports helm
unavailable and every spawned collaborator call succeeds with empty
output, the bootstrap succeeds, writes exactly the rendered k3d config,
and emits exactly the reduced trace. -/
theorem basic_run_eq (env : Env) (config : ProdClusterConfig) (s : RunState)
    (hh : check_helm_installed env = false)
    (he : ∀ c a, c ≠ "helm" → env.exec c a = ExecResult.ran okOut)
    (ha : ∀ m, env.applyExec m = ExecResult.ran okOut) :
    create_prod_cluster env config s =
      ({ fs := ⟨s.fs.paths ++ ["/tmp/k3d-prod-config.yaml"]⟩,
         events := s.events ++ basicRunTrace config s.fs }, Except.ok ()) := by
  have hk3 := he ("k3d") ["cluster", "create", config.name,
    "--config", "/tmp/k3d-prod-config.yaml"] (by decide)
  have hkn := he ("kubectl") ["get", "nodes", "-o", "wide"] (by decide)
  have hka := he ("kubectl") ["apply", "-f", get_manifest_file ("namespaces")] (by decide)
  have ham := ha namespacesInline
  have hfs : pathExists ⟨s.fs.paths ++ ["/tmp/k3d-prod-config.yaml"]⟩
      (get_manifest_file ("namespaces")) = pathExists s.fs (get_manifest_file ("namespaces")) :=
    pathExists_append s.fs _ _ (by decide)
  by_cases hns : pathExists s.fs (get_manifest_file ("namespaces")) = true
  · simp [create_prod_cluster, bootstrap_preamble, cluster_create_block, branch_basic,
      setup_namespaces, bootstrap_postamble, print_basic_access_info, create_k3d_config,
      bind_apply, emit_apply, fsWrite_apply, pathExistsM_apply, sleepSecs_apply,
      run_apply, apply_manifest_apply, pure_apply, hh, hk3, hkn, hka, ham, hfs, hns, okOut,
      basicRunTrace, basicInfoEvs, List.append_assoc]
  · simp only [Bool.not_eq_true] at hns
    simp [create_prod_cluster, bootstrap_preamble, cluster_create_block, branch_basic,
      setup_namespaces, bootstrap_postamble, print_basic_access_info, create_k3d_config,
      bind_apply, emit_apply, fsWrite_apply, pathExistsM_apply, sleepSecs_apply,
      run_apply, apply_manifest_apply, pure_apply, hh, hk3, hkn, hka, ham, hfs, hns, okOut,
      basicRunTrace, basicInfoEvs, List.append_assoc]

/-- Frame lemma for the whole bootstrap assembled from per-step event
domains (the three flag-gated steps are passed through as frame facts
so a disabled flag needs nothing about its subsystem). -/
theorem emitsOnly_create_all {P : Event → Prop} (env : Env)
    (config : ProdClusterConfig)
    (hpo : ∀ o, P (Event.printOut o))
    (hpre : ∀ e ∈ preambleEvs config, P e)
    (hcc : ∀ e ∈ clusterCreateEvs config, P e)
    (hbb : ∀ e ∈ branchBasicEvs config, P e)
    (hbanner : P (Event.print ("\n📦 Installing core components via Helm...")))
    (hrepos : ∀ e ∈ helmReposEvs, P e)
    (hcert : ∀ e ∈ certManagerEvs, P e)
    (hing : ∀ e ∈ ingressEvs, P e)
    (hmon : EmitsOnly P (if config.install_monitoring then
      install_monitoring_stack_helm env else pure ()))
    (hlog : EmitsOnly P (if config.install_logging then
      install_logging_stack_helm env else pure ()))
    (harg : EmitsOnly P (if config.install_argocd then
      install_argocd_helm env else pure ()))
    (hns : ∀ e ∈ namespacesEvs, P e)
    (hnp : ∀ e ∈ networkPoliciesEvs, P e)
    (hq : ∀ e ∈ resourceQuotasEvs, P e)
    (hsa : ∀ e ∈ sampleAppEvs, P e)
    (hpost : ∀ e ∈ postambleEvs config, P e) :
    EmitsOnly P (create_prod_cluster env config) :=
  emitsOnly_create_prod_cluster env config
    (emitsOnly_bootstrap_preamble env config hpre)
    (emitsOnly_cluster_create_block env config hcc hpo)
    (emitsOnly_branch_basic env config hbb hpo)
    (emitsOnly_branch_full env config hbanner
      (emitsOnly_setup_helm_repos env hrepos hpo)
      (emitsOnly_install_cert_manager_helm env hcert hpo)
      (emitsOnly_install_ingress_controller_helm env hing hpo)
      hmon hlog harg
      (emitsOnly_setup_namespaces env hns hpo)
      (emitsOnly_setup_network_policies env hnp hpo)
      (emitsOnly_setup_resource_quotas env hq hpo)
      (emitsOnly_deploy_sample_app_helm env hsa hpo)
      (emitsOnly_bootstrap_postamble config true hpost))

/-- Every event of the reduced path satisfies all the step-marker
negations at once, and is not the full-summary marker. -/
theorem basicAll_markers (config : ProdClusterConfig) :
    ∀ e ∈ basicAllEvs config,
      helmBackedStepCall e = false ∧ networkPoliciesCall e = false ∧
      resourceQuotasCall e = false ∧ sampleAppCall e = false ∧
      e ≠ fullSummaryMarker := by
  intro e he
  have h1 := List.all_eq_true.mp (basicAll_no_helm_call config) e he
  simp only [Bool.and_eq_true, Bool.not_eq_true'] at h1
  exact ⟨h1.1.1.1, h1.1.1.2, h1.1.2, h1.2, basicAll_no_full_marker config e he⟩

/-- C1 (abort-on-failure): for every run of the production bootstrap,
if the action of any enabled pipeline step fails — a collaborator
reporting non-zero exit or spawn failure, which includes a readiness
wait (an embedded kubectl wait call with a hard timeout) exceeding its
timeout and exiting non-zero — then the run terminates with that error
at exactly the failing step's final world, so no step of higher rank
executes (the world, trace included, is frozen at the failure point),
and the report's outcomes for the steps completed before the failing
step are exactly their own outcomes followed by the failure, unchanged.
-/
theorem C1_abort_on_failure (env : Env) (config : ProdClusterConfig)
    (s0 s1 s2 sf : RunState) (helm : Bool)
    (xs ys : List (String × Bool × M Unit)) (n : String) (act : M Unit)
    (res : List (String × Outcome)) (e : String)
    (hpre : bootstrap_preamble env config s0 = (s1, Except.ok helm))
    (hsplit : prodSteps env config helm = xs ++ (n, true, act) :: ys)
    (hpfx : runSteps xs s1 = (s2, res, none))
    (hfail : act s2 = (sf, Except.error e)) :
    create_prod_cluster env config s0 = (sf, Except.error e) ∧
    bootstrap_report env config s0 =
      (sf, res ++ [(n, Outcome.failed e)], Except.error e) := by
  have hsteps : runSteps (prodSteps env config helm) s1 =
      (sf, res ++ [(n, Outcome.failed e)], some e) := by
    rw [hsplit, runSteps_append xs ((n, true, act) :: ys) s1, hpfx]
    simp only [runSteps, if_true, hfail]
  have hrep : bootstrap_report env config s0 =
      (sf, res ++ [(n, Outcome.failed e)], Except.error e) := by
    simp only [bootstrap_report, hpre, hsteps]
  exact ⟨by rw [create_eq_report env config s0, hrep], hrep⟩

/-- C1 witness: with k3d cluster creation failing, the bootstrap aborts
at the cluster-creation step with exactly its failure recorded. -/
theorem C1_abort_on_failure_witness :
    create_prod_cluster k3dFailEnv baseCfg initState =
      ((cluster_create_block k3dFailEnv baseCfg
          ((bootstrap_preamble k3dFailEnv baseCfg initState).1)).1,
       Except.error k3dFailMsg) ∧
    bootstrap_report k3dFailEnv baseCfg initState =
      ((cluster_create_block k3dFailEnv baseCfg
          ((bootstrap_preamble k3dFailEnv baseCfg initState).1)).1,
       [("cluster-create", Outcome.failed k3dFailMsg)], Except.error k3dFailMsg) := by
  have h := C1_abort_on_failure k3dFailEnv baseCfg initState
      ((bootstrap_preamble k3dFailEnv baseCfg initState).1)
      ((bootstrap_preamble k3dFailEnv baseCfg initState).1)
      ((cluster_create_block k3dFailEnv baseCfg
          ((bootstrap_preamble k3dFailEnv baseCfg initState).1)).1)
      true [] (fullStepsList k3dFailEnv baseCfg) ("cluster-create")
      (cluster_create_block k3dFailEnv baseCfg) [] k3dFailMsg
      rfl rfl rfl rfl
  simpa using h

/-- C2 (strict sequential ordering): the pipeline is the fixed
rank-ordered step list — cluster creation, then (helm available)
repositories, cert-manager, ingress, monitoring, logging, ArgoCD,
namespaces, network-policies, resource-quotas and the sample app, or
(helm unavailable) only namespaces — and the sequencer honours the
order strictly: a failure in an earlier segment silences every later
step, and when a later segment starts, every outcome of the earlier
segment is terminal (succeeded or skipped) and the later segment starts
from exactly the earlier segment's final world. -/
theorem C2_strict_sequencing :
    (∀ env config,
      (prodSteps env config true).map (fun st => st.1) =
        ["cluster-create", "helm-repos", "cert-manager", "ingress", "monitoring",
         "logging", "argocd", "namespaces", "network-policies", "resource-quotas",
         "sample-app"] ∧
      (prodSteps env config false).map (fun st => st.1) =
        ["cluster-create", "namespaces"]) ∧
    (∀ (xs ys : List (String × Bool × M Unit)) (s s2 : RunState) res e,
      runSteps xs s = (s2, res, some e) →
      runSteps (xs ++ ys) s = (s2, res, some e)) ∧
    (∀ (xs ys : List (String × Bool × M Unit)) (s s2 : RunState) res,
      runSteps xs s = (s2, res, none) →
      (∀ p ∈ res, p.2 = Outcome.succeeded ∨ p.2 = Outcome.skipped) ∧
      runSteps (xs ++ ys) s =
        ((runSteps ys s2).1, res ++ (runSteps ys s2).2.1, (runSteps ys s2).2.2)) := by
  refine ⟨fun env config => ⟨?_, ?_⟩,
    fun xs ys s s2 res e hf => ?_, fun xs ys s s2 res hok => ?_⟩
  · simp [prodSteps, fullStepsList]
  · simp [prodSteps, basicStepsList]
  · rw [runSteps_append xs ys s, hf]
  · refine ⟨runSteps_ok_outcomes xs s s2 res hok, ?_⟩
    rw [runSteps_append xs ys s, hok]

/-- C2 witness: the failing cluster-creation step silences the whole
helm-backed tail of the pipeline. -/
theorem C2_strict_sequencing_witness :
    runSteps ([("cluster-create", true, cluster_create_block k3dFailEnv baseCfg)]
        ++ fullStepsList k3dFailEnv baseCfg) initState =
      ((runSteps [("cluster-create", true,
          cluster_create_block k3dFailEnv baseCfg)] initState).1,
       [("cluster-create", Outcome.failed k3dFailMsg)], some k3dFailMsg) := by
  exact C2_strict_sequencing.2.1
    [("cluster-create", true, cluster_create_block k3dFailEnv baseCfg)]
    (fullStepsList k3dFailEnv baseCfg) initState
    ((runSteps [("cluster-create", true,
        cluster_create_block k3dFailEnv baseCfg)] initState).1)
    [("cluster-create", Outcome.failed k3dFailMsg)] k3dFailMsg rfl

/-- C6 (fail-closed probing): the helm availability probe is a total
boolean observation — a spawn failure (inability to determine
availability) and a non-zero exit both resolve to unavailable, only a
successful exit resolves to available — and the probing stage never
errors: the preamble containing the probe always finishes Ok, returning
the probed value. -/
theorem C6_fail_closed_probe (env : Env) :
    (env.exec ("helm") ["version"] = ExecResult.spawnFail →
      check_helm_installed env = false) ∧
    (∀ out, env.exec ("helm") ["version"] = ExecResult.ran out →
      out.success = false → check_helm_installed env = false) ∧
    (∀ out, env.exec ("helm") ["version"] = ExecResult.ran out →
      out.success = true → check_helm_installed env = true) ∧
    (∀ config, EndsOk (bootstrap_preamble env config) (check_helm_installed env)) := by
  refine ⟨fun h => ?_, fun out h hs => ?_, fun out h hs => ?_,
    fun config => bootstrap_preamble_result env config⟩
  · simp [check_helm_installed, h]
  · simp [check_helm_installed, h, hs]
  · simp [check_helm_installed, h, hs]

/-- C6 witness: when the helm binary cannot even be spawned, the probe
reports unavailable instead of erroring. -/
theorem C6_fail_closed_probe_witness :
    check_helm_installed spawnFailEnv = false :=
  (C6_fail_closed_probe spawnFailEnv).1 rfl

/-- C9 (config validation): caller counts that fit the u8 fields are
accepted, producing the plan with the counts unchanged and the install
flags the negations of the skip flags; out-of-range counts are rejected
with the ConfigError, and a rejected input reaches no side effect: the
run returns the untouched initial world. -/
theorem C9_config_validation :
    (∀ a : RawProdArgs,
      (0 ≤ a.servers ∧ a.servers ≤ 255 ∧ 0 ≤ a.agents ∧ a.agents ≤ 255) →
      resolve_prod_config a = Except.ok
        { name := a.name, servers := a.servers.toNat, agents := a.agents.toNat,
          install_monitoring := !a.skip_monitoring,
          install_logging := !a.skip_logging,
          install_argocd := !a.skip_argocd } ∧
      ((a.servers.toNat : Int) = a.servers ∧ (a.agents.toNat : Int) = a.agents)) ∧
    (∀ a : RawProdArgs,
      ¬(0 ≤ a.servers ∧ a.servers ≤ 255 ∧ 0 ≤ a.agents ∧ a.agents ≤ 255) →
      resolve_prod_config a = Except.error configErrorMsg) ∧
    (∀ (a : RawProdArgs) (env : Env) (s : RunState),
      resolve_prod_config a = Except.error configErrorMsg →
      main_prod a env s = (s, Except.error configErrorMsg)) := by
  refine ⟨fun a h => ⟨?_, ?_, ?_⟩, fun a h => ?_, fun a env s h => ?_⟩
  · simp only [resolve_prod_config, if_pos h]
  · exact Int.toNat_of_nonneg h.1
  · exact Int.toNat_of_nonneg h.2.2.1
  · simp only [resolve_prod_config, if_neg h]
  · simp only [main_prod, h]

/-- C9 witness: an in-range input resolves to the expected plan, an
out-of-range input (300 servers) is rejected before any side effect. -/
theorem C9_config_validation_witness :
    resolve_prod_config goodArgs = Except.ok
      { name := "prod", servers := 3, agents := 3,
        install_monitoring := false, install_logging := true,
        install_argocd := false } ∧
    resolve_prod_config badArgs = Except.error configErrorMsg ∧
    main_prod badArgs allOkEnv initState = (initState, Except.error configErrorMsg) := by
  refine ⟨?_, ?_, ?_⟩
  · have h := (C9_config_validation.1 goodArgs (by decide)).1
    simpa [goodArgs] using h
  · exact C9_config_validation.2.1 badArgs (by decide)
  · exact C9_config_validation.2.2 badArgs allOkEnv initState
      (C9_config_validation.2.1 badArgs (by decide))

/-- C3 (package-manager-absent fallback): for every configuration,
when the helm probe reports unavailable, the run emits no
package-manager-backed step call and never the full summary marker;
the reduced step list is exactly cluster-create then namespaces; and
when the remaining collaborators succeed, the run succeeds, emits the
basic summary variant, and the namespaces step does run. -/
theorem C3_helm_absent_fallback (env : Env) (config : ProdClusterConfig)
    (hh : check_helm_installed env = false) :
    EmitsOnly (fun e => helmBackedStepCall e = false ∧ e ≠ fullSummaryMarker)
      (create_prod_cluster env config) ∧
    (prodSteps env config false).map (fun st => st.1) =
      ["cluster-create", "namespaces"] ∧
    (∀ s, (∀ c a, c ≠ "helm" → env.exec c a = ExecResult.ran okOut) →
      (∀ m, env.applyExec m = ExecResult.ran okOut) →
      (create_prod_cluster env config s).2 = Except.ok () ∧
      basicSummaryMarker ∈ ((create_prod_cluster env config s).1).events ∧
      ∃ e ∈ ((create_prod_cluster env config s).1).events,
        namespacesStepEvent e = true) := by
  have hall := basicAll_markers config
  have hP : ∀ e ∈ basicAllEvs config,
      helmBackedStepCall e = false ∧ e ≠ fullSummaryMarker :=
    fun e he => ⟨(hall e he).1, (hall e he).2.2.2.2⟩
  have hpo : ∀ o, helmBackedStepCall (Event.printOut o) = false ∧
      Event.printOut o ≠ fullSummaryMarker := by
    intro o
    exact ⟨rfl, by intro h; exact Event.noConfusion h⟩
  refine ⟨?_, ?_, ?_⟩
  · exact emitsOnly_create_prod_cluster_basic env config hh
      (emitsOnly_bootstrap_preamble env config (fun e he => hP e
        (by simp only [basicAllEvs, List.mem_append]; exact Or.inl (Or.inl he))))
      (emitsOnly_cluster_create_block env config (fun e he => hP e
        (by simp only [basicAllEvs, List.mem_append]; exact Or.inl (Or.inr he))) hpo)
      (emitsOnly_branch_basic env config (fun e he => hP e
        (by simp only [basicAllEvs, List.mem_append]; exact Or.inr he)) hpo)
  · simp [prodSteps, basicStepsList]
  · intro s heenv haenv
    have hrun := basic_run_eq env config s hh heenv haenv
    refine ⟨by rw [hrun], ?_, ?_⟩
    · rw [hrun]
      simp [basicRunTrace, basicInfoEvs, basicSummaryMarker]
    · rw [hrun]
      by_cases hns : pathExists s.fs (get_manifest_file ("namespaces")) = true
      · refine ⟨Event.runCmd ("kubectl")
          ["apply", "-f", get_manifest_file ("namespaces")], ?_, ?_⟩
        · simp [basicRunTrace, hns]
        · simp [namespacesStepEvent]
      · refine ⟨Event.applyManifest namespacesInline, ?_, ?_⟩
        · simp [basicRunTrace, hns]
        · simp [namespacesStepEvent]

/-- C3 witness: with helm exiting non-zero and everything else
succeeding, the concrete run skips helm-backed steps and delivers the
basic summary. -/
theorem C3_helm_absent_fallback_witness :
    check_helm_installed noHelmEnv = false ∧
    (prodSteps noHelmEnv baseCfg false).map (fun st => st.1) =
      ["cluster-create", "namespaces"] ∧
    (create_prod_cluster noHelmEnv baseCfg initState).2 = Except.ok () ∧
    basicSummaryMarker ∈ ((create_prod_cluster noHelmEnv baseCfg initState).1).events := by
  have hh : check_helm_installed noHelmEnv = false := rfl
  have he : ∀ c a, c ≠ "helm" → noHelmEnv.exec c a = ExecResult.ran okOut := by
    intro c a hc
    simp [noHelmEnv, hc]
  have ha : ∀ m, noHelmEnv.applyExec m = ExecResult.ran okOut := fun _ => rfl
  have h := C3_helm_absent_fallback noHelmEnv baseCfg hh
  exact ⟨hh, h.2.1, (h.2.2 initState he ha).1, (h.2.2 initState he ha).2.1⟩

/-- C10 (reduced basic path omits unflagged steps): for every
configuration, when the helm probe reports unavailable, the run emits
no network-policies, resource-quotas, or sample-application call —
even though the full path runs those steps without any feature-flag
gate — the reduced step list contains none of their names, and when
the remaining collaborators succeed, the run performs exactly the
reduced trace and returns successfully. -/
theorem C10_basic_path_omissions (env : Env) (config : ProdClusterConfig)
    (hh : check_helm_installed env = false) :
    EmitsOnly (fun e => networkPoliciesCall e = false ∧
      resourceQuotasCall e = false ∧ sampleAppCall e = false)
      (create_prod_cluster env config) ∧
    (¬ "network-policies" ∈ (prodSteps env config false).map (fun st => st.1) ∧
     ¬ "resource-quotas" ∈ (prodSteps env config false).map (fun st => st.1) ∧
     ¬ "sample-app" ∈ (prodSteps env config false).map (fun st => st.1)) ∧
    (∀ s, (∀ c a, c ≠ "helm" → env.exec c a = ExecResult.ran okOut) →
      (∀ m, env.applyExec m = ExecResult.ran okOut) →
      create_prod_cluster env config s =
        ({ fs := ⟨s.fs.paths ++ ["/tmp/k3d-prod-config.yaml"]⟩,
           events := s.events ++ basicRunTrace config s.fs }, Except.ok ())) := by
  have hall := basicAll_markers config
  have hP : ∀ e ∈ basicAllEvs config,
      networkPoliciesCall e = false ∧ resourceQuotasCall e = false ∧
      sampleAppCall e = false :=
    fun e he => ⟨(hall e he).2.1, (hall e he).2.2.1, (hall e he).2.2.2.1⟩
  have hpo : ∀ o, networkPoliciesCall (Event.printOut o) = false ∧
      resourceQuotasCall (Event.printOut o) = false ∧
      sampleAppCall (Event.printOut o) = false :=
    fun o => ⟨rfl, rfl, rfl⟩
  refine ⟨?_, ?_, fun s heenv haenv => basic_run_eq env config s hh heenv haenv⟩
  · exact emitsOnly_create_prod_cluster_basic env config hh
      (emitsOnly_bootstrap_preamble env config (fun e he => hP e
        (by simp only [basicAllEvs, List.mem_append]; exact Or.inl (Or.inl he))))
      (emitsOnly_cluster_create_block env config (fun e he => hP e
        (by simp only [basicAllEvs, List.mem_append]; exact Or.inl (Or.inr he))) hpo)
      (emitsOnly_branch_basic env config (fun e he => hP e
        (by simp only [basicAllEvs, List.mem_append]; exact Or.inr he)) hpo)
  · refine ⟨?_, ?_, ?_⟩ <;> simp [prodSteps, basicStepsList]

/-- C10 witness: the concrete reduced run is exactly the reduced trace
and succeeds without touching network policies, quotas, or the sample
app. -/
theorem C10_basic_path_omissions_witness :
    ¬ "network-policies" ∈ (prodSteps noHelmEnv baseCfg false).map (fun st => st.1) ∧
    create_prod_cluster noHelmEnv baseCfg initState =
      ({ fs := ⟨initState.fs.paths ++ ["/tmp/k3d-prod-config.yaml"]⟩,
         events := initState.events ++ basicRunTrace baseCfg initState.fs },
       Except.ok ()) := by
  have hh : check_helm_installed noHelmEnv = false := rfl
  have he : ∀ c a, c ≠ "helm" → noHelmEnv.exec c a = ExecResult.ran okOut := by
    intro c a hc
    simp [noHelmEnv, hc]
  have ha : ∀ m, noHelmEnv.applyExec m = ExecResult.ran okOut := fun _ => rfl
  have h := C10_basic_path_omissions noHelmEnv baseCfg hh
  exact ⟨h.2.1.1, h.2.2 initState he ha⟩

/-- C4 (feature-flag gating): every resolved plan carries install flags
that are the logical negations of the caller's skip flags, and whenever
an install flag is false, the whole run makes no collaborator call of
that subsystem (no helm install of its charts, no creation of its
namespace) — so running any plan with the flag off never touches the
subsystem. -/
theorem C4_flag_gating :
    (∀ (a : RawProdArgs) (plan : ProdClusterConfig),
      resolve_prod_config a = Except.ok plan →
      plan.install_monitoring = !a.skip_monitoring ∧
      plan.install_logging = !a.skip_logging ∧
      plan.install_argocd = !a.skip_argocd) ∧
    (∀ (env : Env) (config : ProdClusterConfig),
      config.install_monitoring = false →
      EmitsOnly (fun e => monitoringCall e = false) (create_prod_cluster env config)) ∧
    (∀ (env : Env) (config : ProdClusterConfig),
      config.install_logging = false →
      EmitsOnly (fun e => loggingCall e = false) (create_prod_cluster env config)) ∧
    (∀ (env : Env) (config : ProdClusterConfig),
      config.install_argocd = false →
      EmitsOnly (fun e => argocdCall e = false) (create_prod_cluster env config)) := by
  refine ⟨fun a plan h => ?_, fun env config hm => ?_, fun env config hm => ?_,
    fun env config hm => ?_⟩
  · by_cases hr : 0 ≤ a.servers ∧ a.servers ≤ 255 ∧ 0 ≤ a.agents ∧ a.agents ≤ 255
    · simp only [resolve_prod_config, if_pos hr, Except.ok.injEq] at h
      subst h
      exact ⟨rfl, rfl, rfl⟩
    · simp only [resolve_prod_config, if_neg hr] at h
      cases h
  · have hnm : ∀ e ∈ nonMonitoringEvs config, monitoringCall e = false := by
      intro e he
      have h1 := List.all_eq_true.mp (nonMonitoring_no_call config) e he
      simpa using h1
    have hpo : ∀ o, monitoringCall (Event.printOut o) = false := fun _ => rfl
    refine emitsOnly_create_all env config hpo
      (fun e he => hnm e (by simp only [nonMonitoringEvs, List.mem_append]; tauto))
      (fun e he => hnm e (by simp only [nonMonitoringEvs, List.mem_append]; tauto))
      (fun e he => hnm e (by simp only [nonMonitoringEvs, List.mem_append]; tauto))
      rfl
      (fun e he => hnm e (by simp only [nonMonitoringEvs, List.mem_append]; tauto))
      (fun e he => hnm e (by simp only [nonMonitoringEvs, List.mem_append]; tauto))
      (fun e he => hnm e (by simp only [nonMonitoringEvs, List.mem_append]; tauto))
      (by rw [hm]; simpa using emitsOnly_pure (fun e => monitoringCall e = false) ())
      (emitsOnly_ite _ (emitsOnly_install_logging_stack_helm env
        (fun e he => hnm e (by simp only [nonMonitoringEvs, List.mem_append]; tauto)) hpo)
        (emitsOnly_pure _ _))
      (emitsOnly_ite _ (emitsOnly_install_argocd_helm env
        (fun e he => hnm e (by simp only [nonMonitoringEvs, List.mem_append]; tauto)) hpo)
        (emitsOnly_pure _ _))
      (fun e he => hnm e (by simp only [nonMonitoringEvs, List.mem_append]; tauto))
      (fun e he => hnm e (by simp only [nonMonitoringEvs, List.mem_append]; tauto))
      (fun e he => hnm e (by simp only [nonMonitoringEvs, List.mem_append]; tauto))
      (fun e he => hnm e (by simp only [nonMonitoringEvs, List.mem_append]; tauto))
      (fun e he => hnm e (by simp only [nonMonitoringEvs, List.mem_append]; tauto))
  · have hnl : ∀ e ∈ nonLoggingEvs config, loggingCall e = false := by
      intro e he
      have h1 := List.all_eq_true.mp (nonLogging_no_call config) e he
      simpa using h1
    have hpo : ∀ o, loggingCall (Event.printOut o) = false := fun _ => rfl
    refine emitsOnly_create_all env config hpo
      (fun e he => hnl e (by simp only [nonLoggingEvs, List.mem_append]; tauto))
      (fun e he => hnl e (by simp only [nonLoggingEvs, List.mem_append]; tauto))
      (fun e he => hnl e (by simp only [nonLoggingEvs, List.mem_append]; tauto))
      rfl
      (fun e he => hnl e (by simp only [nonLoggingEvs, List.mem_append]; tauto))
      (fun e he => hnl e (by simp only [nonLoggingEvs, List.mem_append]; tauto))
      (fun e he => hnl e (by simp only [nonLoggingEvs, List.mem_append]; tauto))
      (emitsOnly_ite _ (emitsOnly_install_monitoring_stack_helm env
        (fun e he => hnl e (by simp only [nonLoggingEvs, List.mem_append]; tauto)) hpo)
        (emitsOnly_pure _ _))
      (by rw [hm]; simpa using emitsOnly_pure (fun e => loggingCall e = false) ())
      (emitsOnly_ite _ (emitsOnly_install_argocd_helm env
        (fun e he => hnl e (by simp only [nonLoggingEvs, List.mem_append]; tauto)) hpo)
        (emitsOnly_pure _ _))
      (fun e he => hnl e (by simp only [nonLoggingEvs, List.mem_append]; tauto))
      (fun e he => hnl e (by simp only [nonLoggingEvs, List.mem_append]; tauto))
      (fun e he => hnl e (by simp only [nonLoggingEvs, List.mem_append]; tauto))
      (fun e he => hnl e (by simp only [nonLoggingEvs, List.mem_append]; tauto))
      (fun e he => hnl e (by simp only [nonLoggingEvs, List.mem_append]; tauto))
  · have hna : ∀ e ∈ nonArgocdEvs config, argocdCall e = false := by
      intro e he
      have h1 := List.all_eq_true.mp (nonArgocd_no_call config) e he
      simpa using h1
    have hpo : ∀ o, argocdCall (Event.printOut o) = false := fun _ => rfl
    refine emitsOnly_create_all env config hpo
      (fun e he => hna e (by simp only [nonArgocdEvs, List.mem_append]; tauto))
      (fun e he => hna e (by simp only [nonArgocdEvs, List.mem_append]; tauto))
      (fun e he => hna e (by simp only [nonArgocdEvs, List.mem_append]; tauto))
      rfl
      (fun e he => hna e (by simp only [nonArgocdEvs, List.mem_append]; tauto))
      (fun e he => hna e (by simp only [nonArgocdEvs, List.mem_append]; tauto))
      (fun e he => hna e (by simp only [nonArgocdEvs, List.mem_append]; tauto))
      (emitsOnly_ite _ (emitsOnly_install_monitoring_stack_helm env
        (fun e he => hna e (by simp only [nonArgocdEvs, List.mem_append]; tauto)) hpo)
        (emitsOnly_pure _ _))
      (emitsOnly_ite _ (emitsOnly_install_logging_stack_helm env
        (fun e he => hna e (by simp only [nonArgocdEvs, List.mem_append]; tauto)) hpo)
        (emitsOnly_pure _ _))
      (by rw [hm]; simpa using emitsOnly_pure (fun e => argocdCall e = false) ())
      (fun e he => hna e (by simp only [nonArgocdEvs, List.mem_append]; tauto))
      (fun e he => hna e (by simp only [nonArgocdEvs, List.mem_append]; tauto))
      (fun e he => hna e (by simp only [nonArgocdEvs, List.mem_append]; tauto))
      (fun e he => hna e (by simp only [nonArgocdEvs, List.mem_append]; tauto))
      (fun e he => hna e (by simp only [nonArgocdEvs, List.mem_append]; tauto))

/-- C4 witness: the resolved flags of the in-range input are the
negated skip flags, and the concrete monitoring-off run makes no
monitoring call. -/
theorem C4_flag_gating_witness :
    ({ name := "prod", servers := 3, agents := 3,
       install_monitoring := false, install_logging := true,
       install_argocd := false } : ProdClusterConfig).install_monitoring =
      !goodArgs.skip_monitoring ∧
    EmitsOnly (fun e => monitoringCall e = false)
      (create_prod_cluster allOkEnv noMonitoringCfg) := by
  refine ⟨(C4_flag_gating.1 goodArgs _ (by rfl)).1, ?_⟩
  exact C4_flag_gating.2.1 allOkEnv noMonitoringCfg rfl

/-- C5 (fallback payload resolution): for every package-manager-backed
step that accepts a values overlay — cert-manager, ingress,
kube-prometheus-stack, the three overlays of the EFK logging step, and
ArgoCD — when the collaborators succeed: if the step's external values
file exists, the install invocation receives it verbatim (the helm call
in the trace carries --values with that file); if it does not exist,
the step runs with its built-in default payload (inline --set overrides
or the collaborator's defaults, noting the fallback where the source
prints one) and completes successfully — the missing file causes no
failure.  The logging conjunct holds for every combination of its three
overlays at once. -/
theorem C5_values_fallback (env : Env) (s : RunState)
    (he : ∀ c a, env.exec c a = ExecResult.ran okOut)
    (ha : ∀ m, env.applyExec m = ExecResult.ran okOut) :
    (pathExists s.fs (get_values_file ("cert-manager")) = true →
      install_cert_manager_helm env s =
        ({ s with events := s.events ++ certTraceWithValues s.fs }, Except.ok ())) ∧
    (pathExists s.fs (get_values_file ("cert-manager")) = false →
      install_cert_manager_helm env s =
        ({ s with events := s.events ++ certTraceDefault s.fs }, Except.ok ())) ∧
    (pathExists s.fs (get_values_file ("ingress-nginx")) = true →
      install_ingress_controller_helm env s =
        ({ s with events := s.events ++ ingressTraceWithValues }, Except.ok ())) ∧
    (pathExists s.fs (get_values_file ("ingress-nginx")) = false →
      install_ingress_controller_helm env s =
        ({ s with events := s.events ++ ingressTraceDefault }, Except.ok ())) ∧
    (pathExists s.fs (get_values_file ("kube-prometheus-stack")) = true →
      install_monitoring_stack_helm env s =
        ({ s with events := s.events ++ monitoringTraceWithValues }, Except.ok ())) ∧
    (pathExists s.fs (get_values_file ("kube-prometheus-stack")) = false →
      install_monitoring_stack_helm env s =
        ({ s with events := s.events ++ monitoringTraceDefault }, Except.ok ())) ∧
    (install_logging_stack_helm env s =
      ({ s with events := s.events ++
           (loggingTrace (pathExists s.fs (get_values_file ("elasticsearch")))
             (pathExists s.fs (get_values_file ("fluentd")))
             (pathExists s.fs (get_values_file ("kibana")))) }, Except.ok ())) ∧
    (pathExists s.fs (get_values_file ("argocd")) = true →
      install_argocd_helm env s =
        ({ s with events := s.events ++ argocdTraceWithValues }, Except.ok ())) ∧
    (pathExists s.fs (get_values_file ("argocd")) = false →
      install_argocd_helm env s =
        ({ s with events := s.events ++ argocdTraceDefault }, Except.ok ())) := by
  refine ⟨fun hv => ?_, fun hv => ?_, fun hv => ?_, fun hv => ?_, fun hv => ?_,
    fun hv => ?_, ?_, fun hv => ?_, fun hv => ?_⟩
  · by_cases hi : pathExists s.fs (get_manifest_file ("cert-issuer")) = true
    · simp [install_cert_manager_helm, certTraceWithValues, certIssuerStepEvents,
        bind_apply, emit_apply, pathExistsM_apply, sleepSecs_apply, run_apply,
        apply_manifest_apply, pure_apply, he, ha, hv, hi, okOut, List.append_assoc]
    · simp only [Bool.not_eq_true] at hi
      simp [install_cert_manager_helm, certTraceWithValues, certIssuerStepEvents,
        bind_apply, emit_apply, pathExistsM_apply, sleepSecs_apply, run_apply,
        apply_manifest_apply, pure_apply, he, ha, hv, hi, okOut, List.append_assoc]
  · by_cases hi : pathExists s.fs (get_manifest_file ("cert-issuer")) = true
    · simp [install_cert_manager_helm, certTraceDefault, certIssuerStepEvents,
        bind_apply, emit_apply, pathExistsM_apply, sleepSecs_apply, run_apply,
        apply_manifest_apply, pure_apply, he, ha, hv, hi, okOut, List.append_assoc]
    · simp only [Bool.not_eq_true] at hi
      simp [install_cert_manager_helm, certTraceDefault, certIssuerStepEvents,
        bind_apply, emit_apply, pathExistsM_apply, sleepSecs_apply, run_apply,
        apply_manifest_apply, pure_apply, he, ha, hv, hi, okOut, List.append_assoc]
  · simp [install_ingress_controller_helm, ingressTraceWithValues,
      bind_apply, emit_apply, pathExistsM_apply, sleepSecs_apply, run_apply,
      apply_manifest_apply, pure_apply, he, ha, hv, okOut, List.append_assoc]
  · simp [install_ingress_controller_helm, ingressTraceDefault,
      bind_apply, emit_apply, pathExistsM_apply, sleepSecs_apply, run_apply,
      apply_manifest_apply, pure_apply, he, ha, hv, okOut, List.append_assoc]
  · simp [install_monitoring_stack_helm, monitoringTraceWithValues,
      bind_apply, emit_apply, pathExistsM_apply, sleepSecs_apply, run_apply,
      apply_manifest_apply, pure_apply, he, ha, hv, okOut, List.append_assoc]
  · simp [install_monitoring_stack_helm, monitoringTraceDefault,
      bind_apply, emit_apply, pathExistsM_apply, sleepSecs_apply, run_apply,
      apply_manifest_apply, pure_apply, he, ha, hv, okOut, List.append_assoc]
  · cases h1 : pathExists s.fs (get_values_file ("elasticsearch")) <;>
    cases h2 : pathExists s.fs (get_values_file ("fluentd")) <;>
    cases h3 : pathExists s.fs (get_values_file ("kibana")) <;>
    simp [install_logging_stack_helm, loggingTrace,
      bind_apply, emit_apply, pathExistsM_apply, sleepSecs_apply, run_apply,
      apply_manifest_apply, pure_apply, he, ha, h1, h2, h3, okOut,
      List.append_assoc]
  · simp [install_argocd_helm, argocdTraceWithValues,
      bind_apply, emit_apply, pathExistsM_apply, sleepSecs_apply, run_apply,
      apply_manifest_apply, pure_apply, he, ha, hv, okOut, List.append_assoc]
  · simp [install_argocd_helm, argocdTraceDefault,
      bind_apply, emit_apply, pathExistsM_apply, sleepSecs_apply, run_apply,
      apply_manifest_apply, pure_apply, he, ha, hv, okOut, List.append_assoc]

/-- C5 witness: with the values files present every overlay-accepting
install receives its file; from the empty world every one falls back to
its defaults and still succeeds. -/
theorem C5_values_fallback_witness :
    install_cert_manager_helm allOkEnv valuesOnlyState =
      ({ valuesOnlyState with
         events := valuesOnlyState.events ++ certTraceWithValues valuesOnlyState.fs },
       Except.ok ()) ∧
    install_cert_manager_helm allOkEnv initState =
      ({ initState with events := initState.events ++ certTraceDefault initState.fs },
       Except.ok ()) ∧
    install_ingress_controller_helm allOkEnv valuesOnlyState =
      ({ valuesOnlyState with
         events := valuesOnlyState.events ++ ingressTraceWithValues },
       Except.ok ()) ∧
    install_ingress_controller_helm allOkEnv initState =
      ({ initState with events := initState.events ++ ingressTraceDefault },
       Except.ok ()) ∧
    install_monitoring_stack_helm allOkEnv allValuesState =
      ({ allValuesState with
         events := allValuesState.events ++ monitoringTraceWithValues },
       Except.ok ()) ∧
    install_monitoring_stack_helm allOkEnv initState =
      ({ initState with events := initState.events ++ monitoringTraceDefault },
       Except.ok ()) ∧
    install_logging_stack_helm allOkEnv allValuesState =
      ({ allValuesState with
         events := allValuesState.events ++ loggingTrace true true true },
       Except.ok ()) ∧
    install_logging_stack_helm allOkEnv initState =
      ({ initState with events := initState.events ++ loggingTrace false false false },
       Except.ok ()) ∧
    install_argocd_helm allOkEnv allValuesState =
      ({ allValuesState with
         events := allValuesState.events ++ argocdTraceWithValues },
       Except.ok ()) ∧
    install_argocd_helm allOkEnv initState =
      ({ initState with events := initState.events ++ argocdTraceDefault },
       Except.ok ()) := by
  have he : ∀ c a, allOkEnv.exec c a = ExecResult.ran okOut := fun _ _ => rfl
  have ha : ∀ m, allOkEnv.applyExec m = ExecResult.ran okOut := fun _ => rfl
  have h1 := C5_values_fallback allOkEnv valuesOnlyState he ha
  have h2 := C5_values_fallback allOkEnv initState he ha
  have h3 := C5_values_fallback allOkEnv allValuesState he ha
  have hlogAll := h3.2.2.2.2.2.2.1
  rw [show pathExists allValuesState.fs (get_values_file ("elasticsearch")) = true
        from by decide,
      show pathExists allValuesState.fs (get_values_file ("fluentd")) = true
        from by decide,
      show pathExists allValuesState.fs (get_values_file ("kibana")) = true
        from by decide] at hlogAll
  have hlogNone := h2.2.2.2.2.2.2.1
  rw [show pathExists initState.fs (get_values_file ("elasticsearch")) = false
        from by decide,
      show pathExists initState.fs (get_values_file ("fluentd")) = false
        from by decide,
      show pathExists initState.fs (get_values_file ("kibana")) = false
        from by decide] at hlogNone
  exact ⟨h1.1 (by decide), h2.2.1 (by decide), h1.2.2.1 (by decide),
    h2.2.2.2.1 (by decide), h3.2.2.2.2.1 (by decide), h2.2.2.2.2.2.1 (by decide),
    hlogAll, hlogNone, h3.2.2.2.2.2.2.2.1 (by decide),
    h2.2.2.2.2.2.2.2.2 (by decide)⟩

/-- C8 counterexample: the values-directory check is not read-only —
from the empty world it changes the filesystem and emits directory
creations and file writes. -/
theorem C8_probe_side_effects :
    ((ensure_helm_values_dir initState).1).fs ≠ initState.fs ∧
    Event.createDir HELM_VALUES_DIR ∈ ((ensure_helm_values_dir initState).1).events ∧
    Event.writeFile (get_values_file ("cert-manager")) ∈
      ((ensure_helm_values_dir initState).1).events := by
  refine ⟨?_, ?_, ?_⟩ <;> decide

/-- C8 (capability probing, amended): the availability and existence
probes themselves are read-only observations (a filesystem stat returns
the untouched world, and the helm probe is a pure boolean of the
environment); the values-directory stage is read-only exactly when the
directory already exists — when it is missing, the stage provisions it,
appending precisely the default directory-and-file structure to the
filesystem, and succeeds either way. -/
theorem C8_probe_effects (s : RunState) :
    (∀ p, pathExistsM p s = (s, Except.ok (pathExists s.fs p))) ∧
    (pathExists s.fs HELM_VALUES_DIR = true →
      ensure_helm_values_dir s = (s, Except.ok ())) ∧
    (pathExists s.fs HELM_VALUES_DIR = false →
      ((ensure_helm_values_dir s).1).fs.paths = s.fs.paths ++ helmValuesCreatedPaths ∧
      (ensure_helm_values_dir s).2 = Except.ok ()) := by
  refine ⟨fun p => rfl, fun h => ?_, fun h => ?_⟩
  · simp only [HELM_VALUES_DIR] at h
    simp [ensure_helm_values_dir, bind_apply, pathExistsM_apply, pure_apply, h,
      HELM_VALUES_DIR]
  · simp only [HELM_VALUES_DIR] at h
    constructor
    · simp [ensure_helm_values_dir, create_default_values_files,
        create_sample_nginx_chart, bind_apply, emit_apply, fsCreateDirAll_apply,
        fsWrite_apply, pathExistsM_apply, pure_apply, h, helmValuesCreatedPaths,
        get_values_file, HELM_VALUES_DIR, List.append_assoc]
    · simp [ensure_helm_values_dir, create_default_values_files,
        create_sample_nginx_chart, bind_apply, emit_apply, fsCreateDirAll_apply,
        fsWrite_apply, pathExistsM_apply, pure_apply, h, get_values_file,
        HELM_VALUES_DIR]

/-- C8 witness: when the values directory exists the stage is a no-op;
from the empty world it appends exactly the default structure. -/
theorem C8_probe_effects_witness :
    ensure_helm_values_dir helmDirState = (helmDirState, Except.ok ()) ∧
    ((ensure_helm_values_dir initState).1).fs.paths =
      initState.fs.paths ++ helmValuesCreatedPaths := by
  exact ⟨(C8_probe_effects helmDirState).2.1 (by decide),
    ((C8_probe_effects initState).2.2 (by decide)).1⟩

/-- C7 (failure report, amended): when the bootstrap aborts on a step
failure, the value the caller receives is the terminating error alone —
the function's result type carries no step outcomes.  The full ordered
StepResult list (the outcomes of the steps completed before the failing
step, followed by that failure) exists only in the report view, which
agrees with the returned world and error and extends them with the
outcome list. -/
theorem C7_failure_report (env : Env) (config : ProdClusterConfig)
    (s0 s1 s2 sf : RunState) (helm : Bool)
    (xs ys : List (String × Bool × M Unit)) (n : String) (act : M Unit)
    (res : List (String × Outcome)) (e : String)
    (hpre : bootstrap_preamble env config s0 = (s1, Except.ok helm))
    (hsplit : prodSteps env config helm = xs ++ (n, true, act) :: ys)
    (hpfx : runSteps xs s1 = (s2, res, none))
    (hfail : act s2 = (sf, Except.error e)) :
    (create_prod_cluster env config s0).2 = Except.error e ∧
    bootstrap_report env config s0 =
      ((create_prod_cluster env config s0).1, res ++ [(n, Outcome.failed e)],
       (create_prod_cluster env config s0).2) := by
  have hsteps : runSteps (prodSteps env config helm) s1 =
      (sf, res ++ [(n, Outcome.failed e)], some e) := by
    rw [hsplit, runSteps_append xs ((n, true, act) :: ys) s1, hpfx]
    simp only [runSteps, if_true, hfail]
  have hrep : bootstrap_report env config s0 =
      (sf, res ++ [(n, Outcome.failed e)], Except.error e) := by
    simp only [bootstrap_report, hpre, hsteps]
  have hcreate : create_prod_cluster env config s0 =
      (sf, Except.error e) := by
    rw [create_eq_report env config s0, hrep]
  rw [hcreate, hrep]
  exact ⟨rfl, rfl⟩

set_option maxRecDepth 4000 in
/-- C7 witness: with the node-health check unable to spawn, the caller
receives only the error while the report also carries the outcome of
the failing cluster-creation step. -/
theorem C7_failure_report_witness :
    (create_prod_cluster getNodesFailEnv baseCfg initState).2 =
      Except.error getNodesFailMsg ∧
    bootstrap_report getNodesFailEnv baseCfg initState =
      ((create_prod_cluster getNodesFailEnv baseCfg initState).1,
       [("cluster-create", Outcome.failed getNodesFailMsg)],
       (create_prod_cluster getNodesFailEnv baseCfg initState).2) := by
  have h := C7_failure_report getNodesFailEnv baseCfg initState
      ((bootstrap_preamble getNodesFailEnv baseCfg initState).1)
      ((bootstrap_preamble getNodesFailEnv baseCfg initState).1)
      ((cluster_create_block getNodesFailEnv baseCfg
          ((bootstrap_preamble getNodesFailEnv baseCfg initState).1)).1)
      true [] (fullStepsList getNodesFailEnv baseCfg) ("cluster-create")
      (cluster_create_block getNodesFailEnv baseCfg) [] getNodesFailMsg
      rfl rfl rfl rfl
  simpa only [List.nil_append] using h

set_option maxHeartbeats 8000000 in
set_option maxRecDepth 8000 in
/-- C7 counterexample: the caller does not receive the step results —
two aborting runs that differ only in the monitoring flag return the
exact same value to the caller, yet their reports' StepResult lists
differ at the monitoring entry (skipped in one, absent in the other),
so the returned value cannot carry the ordered StepResult list. -/
theorem C7_report_not_in_return :
    (create_prod_cluster loggingFailEnv baseCfg helmDirState).2 =
      (create_prod_cluster loggingFailEnv noMonitoringCfg helmDirState).2 ∧
    ("monitoring", Outcome.skipped) ∈
      (bootstrap_report loggingFailEnv noMonitoringCfg helmDirState).2.1 ∧
    ¬ ("monitoring", Outcome.skipped) ∈
      (bootstrap_report loggingFailEnv baseCfg helmDirState).2.1 := by
  have hp0 : pathExists ⟨["./helm-values"]⟩ ("./helm-values") = true := by decide
  have hp1 : pathExists ⟨["./helm-values", "/tmp/k3d-prod-config.yaml"]⟩
      ("./helm-values/cert-manager.yaml") = false := by decide
  have hp2 : pathExists ⟨["./helm-values", "/tmp/k3d-prod-config.yaml"]⟩
      ("./helm-values/manifests/cert-issuer.yaml") = false := by decide
  have hp3 : pathExists ⟨["./helm-values", "/tmp/k3d-prod-config.yaml"]⟩
      ("./helm-values/ingress-nginx.yaml") = false := by decide
  have hp4 : pathExists ⟨["./helm-values", "/tmp/k3d-prod-config.yaml"]⟩
      ("./helm-values/kube-prometheus-stack.yaml") = false := by decide
  refine ⟨?_, ?_, ?_⟩ <;>
  simp [create_prod_cluster, branch_full, bootstrap_report, prodSteps,
    fullStepsList, basicStepsList, runSteps, bootstrap_preamble,
    check_helm_installed, ensure_helm_values_dir, create_k3d_config,
    cluster_create_block, setup_helm_repos, install_cert_manager_helm,
    install_ingress_controller_helm, install_monitoring_stack_helm,
    install_logging_stack_helm, bind_apply, emit_apply, fsWrite_apply,
    fsCreateDirAll_apply, pathExistsM_apply, sleepSecs_apply, run_apply,
    apply_manifest_apply, pure_apply, throwM_apply, loggingFailEnv, baseCfg,
    noMonitoringCfg, helmDirState, okOut, HELM_VALUES_DIR, get_values_file,
    get_manifest_file, certManagerBaseArgs, ingressBaseArgs, ingressDefaultArgs,
    monitoringBaseArgs, esBaseArgs, certIssuerInline, hp0, hp1, hp2, hp3, hp4]

end EK
